/-
  Verification of the urban.io simulation kernel.

  Shallow embedding of the TypeScript sources into Lean 4:
    * types            (src/types.ts, reconstructed from the type declarations shipped
                        with the demo bundle)
    * zoning system    (src/systems/zoning.ts)
    * traffic system   (the damped traffic module: the only traffic source in the
                        repository that exports the initializeRoadLoads function which
                        src/engine/SimulationEngine.ts imports)
    * transit system   (src/systems/transit.ts, the damped-ridership version)
    * economy system   (src/systems/economy.ts)
    * politics system  (src/systems/politics.ts, the weighted-voting version)
    * orchestrator     (src/engine/SimulationEngine.ts)

  Numbers are embedded as rationals.  All arithmetic in the sources is exact on the
  values considered here (small integers and decimal constants), so the rational
  embedding is faithful.  JavaScript Map lookups keyed by entity id are embedded as
  first-match list lookups; engine states keep ids unique (one district per id, one
  representative per district), and the theorems that depend on uniqueness carry a
  Nodup hypothesis.  The deterministic sine-based pseudo-random draw used by
  elections is embedded as an explicit function parameter from seed to rational,
  quantified over in the election theorems.
-/
import Mathlib

namespace UrbanSim

/-! ## Core types (src/types.ts) -/

inductive ZoneType where
  | lowDensityResidential
  | midDensityResidential
  | highDensityResidential
  | mixedUse
  | commercial
  | industrial
  | transitOriented
  | park
deriving DecidableEq

inductive PoliticalLeaning where
  | progressive
  | moderate
  | conservative
  | nimby
  | yimby
  | populist
deriving DecidableEq

inductive VoteRequirement where
  | simpleMajority
  | superMajority
  | executiveOrder
  | referendum
deriving DecidableEq

inductive PolicyCategory where
  | zoning
  | transit
  | congestionPricing
  | housing
  | budget
  | infrastructure
  | taxation
deriving DecidableEq

inductive TransitType where
  | bus
  | rail
deriving DecidableEq

inductive GameMode where
  | political
  | sandbox
deriving DecidableEq

inductive ElectionOutcome where
  | retained
  | replaced
deriving DecidableEq

/-- Zone allocation: percentage of district area per zone type. -/
structure ZoneAllocation where
  low_density_residential : ℚ
  mid_density_residential : ℚ
  high_density_residential : ℚ
  mixed_use : ℚ
  commercial : ℚ
  industrial : ℚ
  transit_oriented : ℚ
  park : ℚ
deriving DecidableEq

structure DistrictMetrics where
  averageCommuteMinutes : ℚ
  averageRent : ℚ
  rentBurden : ℚ
  jobAccessScore : ℚ
  trafficCongestion : ℚ
  publicServiceSatisfaction : ℚ
  happiness : ℚ
  propertyValue : ℚ
  crimeRate : ℚ
  greenSpaceAccess : ℚ
deriving DecidableEq

structure District where
  id : String
  name : String
  population : ℚ
  area : ℚ
  zones : ZoneAllocation
  maxDensity : ℚ
  currentDensity : ℚ
  metrics : DistrictMetrics
  adjacentDistricts : List String
  hasTransitStation : Bool
  transitLines : List String
  parkingMinimum : ℚ
deriving DecidableEq

structure Representative where
  id : String
  name : String
  districtId : String
  leaning : PoliticalLeaning
  approvalRating : ℚ
  reElectionRisk : ℚ
  priorities : List PolicyCategory
  voteHistory : List (String × ℕ × Bool)
  termNumber : ℕ
deriving DecidableEq

inductive PolicyEffectTarget where
  | district (districtId : String)
  | districts (districtIds : List String)
  | city
  | adjacent (districtId : String)
deriving DecidableEq

/-- A policy effect names its metric by string key, exactly as the source does. -/
structure PolicyEffect where
  target : PolicyEffectTarget
  metric : String
  delta : ℚ
  delay : ℕ
  duration : ℕ
deriving DecidableEq

inductive TargetDistricts where
  | all
  | some (ids : List String)
deriving DecidableEq

structure PolicyProposal where
  id : String
  name : String
  category : PolicyCategory
  voteRequirement : VoteRequirement
  effects : List PolicyEffect
  cost : ℚ
  targetDistricts : TargetDistricts
  politicalCost : ℚ
deriving DecidableEq

structure TransitLine where
  id : String
  name : String
  type : TransitType
  districts : List String
  capacity : ℚ
  ridership : ℚ
  operatingCost : ℚ
  constructionTurnsRemaining : ℕ
  propertyValueBoost : ℚ
deriving DecidableEq

/-- Road network: association lists keyed by the canonical district-pair key. -/
structure RoadNetwork where
  capacities : List (String × ℚ)
  loads : List (String × ℚ)
deriving DecidableEq

structure Budget where
  balance : ℚ
  incomePerTurn : ℚ
  expensesPerTurn : ℚ
  taxRate : ℚ
  transitSubsidy : ℚ
deriving DecidableEq

structure CityMetrics where
  totalPopulation : ℚ
  averageCommute : ℚ
  averageRent : ℚ
  overallHappiness : ℚ
  congestionIndex : ℚ
  transitRidership : ℚ
  budgetHealth : ℚ
  housingSupply : ℚ
  housingDemand : ℚ
  jobsTotal : ℚ
  economicOutput : ℚ
deriving DecidableEq

structure ScenarioGoal where
  metric : String
  target : ℚ
  comparison : Bool        -- true = "above", false = "below"
  label : String
deriving DecidableEq

structure GameEvent where
  type : String
  message : String
  districtId : Option String
  severity : String
deriving DecidableEq

/-- An active effect tracks its delay and duration countdowns; turnsRemaining = -1
    is the permanent sentinel. -/
structure ActiveEffect where
  policyId : String
  effect : PolicyEffect
  turnsRemaining : ℤ
  turnsUntilActive : ℤ
deriving DecidableEq

structure VoteCast where
  representativeId : String
  votedYes : Bool
  reason : String
deriving DecidableEq

structure VoteResult where
  policyId : String
  votes : List VoteCast
  passed : Bool
  votesFor : ℕ
  votesAgainst : ℕ
  required : VoteRequirement
deriving DecidableEq

structure ElectionEntry where
  districtId : String
  incumbentId : String
  outcome : ElectionOutcome
  newRepresentativeId : Option String
  approvalAtElection : ℚ
deriving DecidableEq

structure ElectionResult where
  turn : ℕ
  results : List ElectionEntry
deriving DecidableEq

/-! ## Shared helpers -/

/-- First-match lookup of a district by id (JS: districtMap.get). -/
def findD (ds : List District) (i : String) : Option District :=
  ds.find? (fun d => d.id = i)

/-- First-match lookup of a representative by id. -/
def findRep (reps : List Representative) (i : String) : Option Representative :=
  reps.find? (fun r => r.id = i)

/-- In-place mutation of the district with a given id, embedded as a map. -/
def updD (ds : List District) (i : String) (f : District → District) : List District :=
  ds.map (fun d => if d.id = i then f d else d)

/-- Association-list read with default (JS: map.get(k) ?? dflt). -/
def aget (m : List (String × ℚ)) (k : String) (dflt : ℚ) : ℚ :=
  match m.find? (fun p => p.1 = k) with
  | some p => p.2
  | none => dflt

/-- Association-list read (JS: map.get(k) without default). -/
def agetOpt (m : List (String × ℚ)) (k : String) : Option ℚ :=
  (m.find? (fun p => p.1 = k)).map (fun p => p.2)

/-- Association-list write (JS: map.set overwrites or appends). -/
def aset (m : List (String × ℚ)) (k : String) (v : ℚ) : List (String × ℚ) :=
  if (m.find? (fun p => p.1 = k)).isSome then
    m.map (fun p => if p.1 = k then (k, v) else p)
  else
    m ++ [(k, v)]

/-- JavaScript Math.round: round half toward positive infinity. -/
def jsRound (x : ℚ) : ℤ := ⌊x + 1/2⌋

/-- Sum of district populations. -/
def totalPop (ds : List District) : ℚ :=
  (ds.map (fun d => d.population)).sum

/-! ## Zoning system (src/systems/zoning.ts) -/

def densityYield (z : ZoneType) : ℚ :=
  match z with
  | .lowDensityResidential => 3000
  | .midDensityResidential => 10000
  | .highDensityResidential => 25000
  | .mixedUse => 15000
  | .commercial => 2000
  | .industrial => 500
  | .transitOriented => 20000
  | .park => 0

def jobYield (z : ZoneType) : ℚ :=
  match z with
  | .lowDensityResidential => 500
  | .midDensityResidential => 2000
  | .highDensityResidential => 5000
  | .mixedUse => 8000
  | .commercial => 15000
  | .industrial => 6000
  | .transitOriented => 10000
  | .park => 100

def rentMultiplier (z : ZoneType) : ℚ :=
  match z with
  | .lowDensityResidential => 13/10
  | .midDensityResidential => 1
  | .highDensityResidential => 85/100
  | .mixedUse => 9/10
  | .commercial => 11/10
  | .industrial => 7/10
  | .transitOriented => 8/10
  | .park => 12/10

/-- The zone allocation as the (zoneType, percentage) entry list the source
    iterates over with Object.entries. -/
def zoneEntries (z : ZoneAllocation) : List (ZoneType × ℚ) :=
  [ (.lowDensityResidential, z.low_density_residential),
    (.midDensityResidential, z.mid_density_residential),
    (.highDensityResidential, z.high_density_residential),
    (.mixedUse, z.mixed_use),
    (.commercial, z.commercial),
    (.industrial, z.industrial),
    (.transitOriented, z.transit_oriented),
    (.park, z.park) ]

def calculateZoningCapacity (d : District) : ℚ :=
  let capacity := ((zoneEntries d.zones).map
    (fun e => d.area * (e.2 / 100) * densityYield e.1)).sum
  min capacity (d.maxDensity * d.area)

def calculateHousingSupply (ds : List District) : ℚ :=
  ⌊((ds.map calculateZoningCapacity).sum) / (5/2)⌋

def calculateJobCapacity (ds : List District) : ℚ :=
  ⌊(ds.map (fun d => ((zoneEntries d.zones).map
      (fun e => d.area * (e.2 / 100) * jobYield e.1)).sum)).sum⌋

def calculateDistrictRent (d : District) (cityBaseRent : ℚ) (m : CityMetrics) : ℚ :=
  let entries := (zoneEntries d.zones).filter (fun e => 0 < e.2)
  let weightedMultiplier := (entries.map (fun e => rentMultiplier e.1 * e.2)).sum
  let totalWeight := (entries.map (fun e => e.2)).sum
  let avgMultiplier := if 0 < totalWeight then weightedMultiplier / totalWeight else 1
  let supplyDemandPressure :=
    if 0 < m.housingSupply then m.housingDemand / m.housingSupply else 2
  let demandPressure := max (1/2) (min 2 supplyDemandPressure)
  let transitDiscount : ℚ := if d.hasTransitStation then 95/100 else 105/100
  let densityFrac := d.currentDensity / max d.maxDensity 1
  let densityEffect := 1 - densityFrac * (15/100)
  cityBaseRent * avgMultiplier * demandPressure * transitDiscount * densityEffect

def calculateRentBurden (rent medianIncome : ℚ) : ℚ :=
  min 1 ((rent * 12) / max medianIncome 1)

def updateDistrictDensity (d : District) : District :=
  { d with currentDensity := if 0 < d.area then d.population / d.area else 0 }

def tickZoning (ds : List District) (m : CityMetrics)
    (cityBaseRent medianIncome : ℚ) : List District × CityMetrics :=
  let ds1 := ds.map updateDistrictDensity
  let ds2 := ds1.map (fun d =>
    let rent := calculateDistrictRent d cityBaseRent m
    { d with metrics := { d.metrics with
        averageRent := rent,
        rentBurden := calculateRentBurden rent medianIncome } })
  let m1 := { m with
    housingSupply := calculateHousingSupply ds2,
    jobsTotal := calculateJobCapacity ds2 }
  let tp := totalPop ds2
  let m2 := if 0 < tp then
      { m1 with averageRent :=
          ((ds2.map (fun d => d.metrics.averageRent * d.population)).sum) / tp }
    else m1
  (ds2, m2)

/-! ## Traffic system (the damped traffic module of the repository: loads persist,
    commute and congestion are damped; it exports the initializeRoadLoads the
    engine imports) -/

/-- JS: [a, b].sort().join("|"). -/
def roadKey (a b : String) : String :=
  if a < b then a ++ "|" ++ b else b ++ "|" ++ a

def calculateCongestion (road : RoadNetwork) (a b : String) : ℚ :=
  let key := roadKey a b
  let capacity := aget road.capacities key 1000
  let load := aget road.loads key 0
  min (load / capacity) 1

def getTransitCapacityBetween (a b : String) (lines : List TransitLine) : ℚ :=
  (lines.map (fun line =>
    if line.constructionTurnsRemaining > 0 then 0
    else
      match line.districts.indexOf? a, line.districts.indexOf? b with
      | Option.some ia, Option.some ib =>
          line.capacity / max ((ia : ℤ) - ib).natAbs 1
      | _, _ => 0)).sum

def updateRoadLoads (road : RoadNetwork) (ds : List District)
    (lines : List TransitLine) : RoadNetwork :=
  ds.foldl (fun road d =>
    d.adjacentDistricts.foldl (fun road adjId =>
      match findD ds adjId with
      | none => road
      | some adj =>
        let key := roadKey d.id adjId
        match agetOpt road.capacities key with
        | none => road
        | some capacity =>
          let currentLoad := aget road.loads key (capacity * (1/2))
          let popFactor := (d.population + adj.population) / 2
          let t1 := popFactor * (15/1000)
          let t2 := t1 + capacity * (15/100) * (2/1000)
          let transitCap := getTransitCapacityBetween d.id adjId lines
          let transitAbsorb := min (transitCap * (3/10)) (t2 * (4/10))
          let t3 := t2 - transitAbsorb
          let mixedUseShare := ((d.zones.mixed_use + adj.zones.mixed_use) / 2) / 100
          let t4 := t3 * (1 - mixedUseShare * (25/100))
          let targetLoad := max 0 t4
          let newLoad := currentLoad * (1 - 2/10) + targetLoad * (2/10)
          { road with loads := aset road.loads key newLoad }) road) road

def calculateTargetCommute (d : District) (ds : List District)
    (road : RoadNetwork) (lines : List TransitLine) : ℚ :=
  let mixedUseShare := d.zones.mixed_use / 100
  let selfContainedPortion := mixedUseShare * (25/100)
  let selfContainedCommute : ℚ := 10
  let contributions := d.adjacentDistricts.filterMap (fun adjId =>
    match findD ds adjId with
    | none => none
    | some adj =>
      let c1 : ℚ := 20 + calculateCongestion road d.id adjId * 35
      let transitCap := getTransitCapacityBetween d.id adjId lines
      let c2 := if 0 < transitCap then
          c1 * (1 - min (3/10) (transitCap / 15000))
        else c1
      let avgDensityShare :=
        (d.currentDensity / max d.maxDensity 1 +
         adj.currentDensity / max adj.maxDensity 1) / 2
      Option.some (c2 * (1 - avgDensityShare * (12/100))))
  if contributions.length = 0 then 50
  else
    let externalCommute := contributions.sum / contributions.length
    selfContainedPortion * selfContainedCommute +
      (1 - selfContainedPortion) * externalCommute

def calculateCityCongestion (road : RoadNetwork) : ℚ :=
  let per := road.capacities.map (fun p =>
    min ((aget road.loads p.1 0) / p.2) 1)
  if 0 < per.length then per.sum / per.length else 0

/-- Source name: initializeRoadLoads.  Seeds each segment load from the average
    congestion of its endpoint districts, once, at engine construction. -/
def initRoadLoads (road : RoadNetwork) (ds : List District) : RoadNetwork :=
  ds.foldl (fun road d =>
    d.adjacentDistricts.foldl (fun road adjId =>
      match findD ds adjId with
      | none => road
      | some adj =>
        let key := roadKey d.id adjId
        match agetOpt road.capacities key with
        | none => road
        | some capacity =>
          let avgCongestion :=
            (d.metrics.trafficCongestion + adj.metrics.trafficCongestion) / 2
          { road with loads := aset road.loads key (capacity * avgCongestion) })
      road) road

def tickTraffic (ds : List District) (road : RoadNetwork)
    (lines : List TransitLine) : List District × RoadNetwork :=
  let road1 := updateRoadLoads road ds lines
  let ds1 := ds.map (fun d =>
    let targetCommute := calculateTargetCommute d ds road1 lines
    let newCommute :=
      d.metrics.averageCommuteMinutes * (1 - 15/100) + targetCommute * (15/100)
    let congList := d.adjacentDistricts.map (fun adjId =>
      calculateCongestion road1 d.id adjId)
    let targetCongestion :=
      if 0 < congList.length then congList.sum / congList.length else 0
    let newCongestion :=
      d.metrics.trafficCongestion * (1 - 15/100) + targetCongestion * (15/100)
    { d with metrics := { d.metrics with
        averageCommuteMinutes := newCommute,
        trafficCongestion := newCongestion } })
  (ds1, road1)

/-! ## Transit system (src/systems/transit.ts, damped-ridership version) -/

def calculateRidership (line : TransitLine) (ds : List District) : ℚ :=
  if line.constructionTurnsRemaining > 0 then 0
  else
    let connected := line.districts.filterMap (findD ds)
    if connected.length = 0 then 0
    else
      let avgDensity := (connected.map (fun d => d.currentDensity)).sum / connected.length
      let densityFactor :=
        match line.type with
        | .rail => max 0 (avgDensity / 8000)
        | .bus => max (3/10) (avgDensity / 4000)
      let targetRidership :=
        min (line.capacity * densityFactor * (6/10)) (line.capacity * (12/10))
      let newRidership := line.ridership * (1 - 1/10) + targetRidership * (1/10)
      max 0 (jsRound newRidership)

/-- Applied whenever any construction milestone fires this tick; note that it
    boosts every already-operational line's districts, not only the newly
    completed line (src comment claims the latter). -/
def applyTransitPropertyEffects (ds : List District)
    (lines : List TransitLine) : List District :=
  lines.foldl (fun ds line =>
    if line.constructionTurnsRemaining > 0 then ds
    else
      let boost : ℚ := match line.type with | .rail => 15/100 | .bus => 3/100
      line.districts.foldl (fun ds districtId =>
        updD ds districtId (fun d =>
          { d with
            metrics := { d.metrics with
              propertyValue := d.metrics.propertyValue + boost * line.propertyValueBoost },
            hasTransitStation := true })) ds) ds

def transitTypeText : TransitType → String
  | .bus => "bus"
  | .rail => "rail"

def progressConstruction (lines : List TransitLine) : List TransitLine × List GameEvent :=
  lines.foldl (fun acc line =>
    if line.constructionTurnsRemaining > 0 then
      let line1 := { line with
        constructionTurnsRemaining := line.constructionTurnsRemaining - 1 }
      if line1.constructionTurnsRemaining = 0 then
        (acc.1 ++ [line1],
         acc.2 ++ [⟨"milestone",
           line.name ++ " (" ++ transitTypeText line.type ++ ") is now operational!",
           none, "info"⟩])
      else (acc.1 ++ [line1], acc.2)
    else (acc.1 ++ [line], acc.2)) ([], [])

structure TransitTickResult where
  districts : List District
  lines : List TransitLine
  metrics : CityMetrics
  events : List GameEvent
  transitCost : ℚ
deriving DecidableEq

def tickTransit (ds : List District) (lines : List TransitLine)
    (m : CityMetrics) : TransitTickResult :=
  let (lines1, constructionEvents) := progressConstruction lines
  let ds1 := if 0 < constructionEvents.length then
      applyTransitPropertyEffects ds lines1
    else ds
  let lines2 := lines1.map (fun line =>
    { line with ridership := calculateRidership line ds1 })
  let m1 := { m with transitRidership := (lines2.map (fun l => l.ridership)).sum }
  let transitCost := ((lines2.filter
      (fun l => l.constructionTurnsRemaining = 0)).map (fun l => l.operatingCost)).sum
  let ds2 := ds1.map (fun d =>
    let mine := (lines2.filter (fun l =>
      decide (d.id ∈ l.districts) ∧ l.constructionTurnsRemaining = 0)).map (fun l => l.id)
    { d with transitLines := mine, hasTransitStation := 0 < mine.length })
  ⟨ds2, lines2, m1, constructionEvents, transitCost⟩

/-! ## Economy system (src/systems/economy.ts) -/

def calculateHappiness (d : District) : ℚ :=
  let m := d.metrics
  let commuteScore := max 0 (1 - m.averageCommuteMinutes / 60)
  let rentScore := max 0 (1 - m.rentBurden)
  let jobScore := m.jobAccessScore
  let trafficScore := 1 - m.trafficCongestion
  let serviceScore := m.publicServiceSatisfaction
  let greenScore := m.greenSpaceAccess
  commuteScore * (25/100) + rentScore * (25/100) + jobScore * (15/100) +
    trafficScore * (15/100) + serviceScore * (10/100) + greenScore * (10/100)

def estimateDistrictJobs (d : District) : ℚ :=
  let jobZonePercent := d.zones.mixed_use + d.zones.commercial +
    d.zones.industrial + d.zones.transit_oriented
  (jobZonePercent / 100) * d.area * d.currentDensity * (1/2)

def calculateJobAccess (d : District) (ds : List District) (totalJobs : ℚ) : ℚ :=
  if totalJobs = 0 then 0
  else
    let localJobs := estimateDistrictJobs d
    let reachableJobs := localJobs + (d.adjacentDistricts.map (fun adjId =>
      match findD ds adjId with
      | none => 0
      | some adj =>
        let accessFactor : ℚ :=
          if d.hasTransitStation ∧ adj.hasTransitStation then 8/10 else 5/10
        estimateDistrictJobs adj * accessFactor)).sum
    min 1 (reachableJobs / (totalJobs * (3/10)))

structure Move where
  src : String      -- source field name: from
  dst : String      -- source field name: to
  count : ℤ
deriving DecidableEq

/-- Attractiveness score used by migration, looked up through the per-run map
    (missing id defaults to 0.5 as in the source). -/
def attractivenessScore (d : District) : ℚ :=
  d.metrics.happiness * (4/10) + (1 - d.metrics.rentBurden) * (3/10) +
    d.metrics.jobAccessScore * (3/10)

def attrOf (ds : List District) (i : String) : ℚ :=
  match findD ds i with
  | some d => attractivenessScore d
  | none => 1/2

/-- The inner body of the migration double loop: one ordered (district,
    neighbor-id) pair, producing a move when the attractiveness gap exceeds the
    margin and the destination has room. -/
def migrationStep (ds : List District) (d : District) (adjId : String) : Option Move :=
  match findD ds adjId with
  | none => none
  | some adjDistrict =>
    let myScore := attrOf ds d.id
    let adjScore := attrOf ds adjId
    let diff := adjScore - myScore
    if 1/20 < diff then
      let adjCapacity := adjDistrict.maxDensity * adjDistrict.area
      let adjRoom := adjCapacity - adjDistrict.population
      if 0 < adjRoom then
        let migrants := ⌊d.population * (2/100) * diff⌋
        let actualMigrants := min migrants ⌊adjRoom * (1/10)⌋
        if 0 < actualMigrants then Option.some ⟨d.id, adjId, actualMigrants⟩
        else none
      else none
    else none

def computeMoves (ds : List District) : List Move :=
  ds.flatMap (fun d => d.adjacentDistricts.filterMap (migrationStep ds d))

def applyMoves (ds : List District) (moves : List Move) : List District :=
  moves.foldl (fun ds mv =>
    match findD ds mv.src, findD ds mv.dst with
    | some _, some _ =>
        updD (updD ds mv.src (fun d =>
          { d with population := d.population - mv.count }))
          mv.dst (fun d => { d with population := d.population + mv.count })
    | _, _ => ds) ds

/-- Migration: all moves are computed from the pre-move scores, then applied. -/
def simulateMigration (ds : List District) : List District × List Move :=
  let moves := computeMoves ds
  (applyMoves ds moves, moves)

def applyPopulationGrowth (ds : List District) : List District :=
  ds.map (fun d =>
    let capacity := d.maxDensity * d.area
    let room := capacity - d.population
    if 0 < room then
      let growth := ⌊d.population * (2/1000)⌋
      { d with population := d.population + min growth ⌊room * (5/100)⌋ }
    else d)

def updateBudget (b : Budget) (ds : List District) : Budget × List GameEvent :=
  let tp := totalPop ds
  let income := tp * (5/100) * b.taxRate
  let net := income - b.expensesPerTurn
  let b1 := { b with incomePerTurn := income, balance := b.balance + net }
  let events :=
    if b1.balance < 0 then
      [⟨"budget", "Budget deficit! Consider raising taxes or cutting services.",
        none, "critical"⟩]
    else if net < 0 then
      [⟨"budget", "Running a deficit per turn.", none, "warning"⟩]
    else []
  (b1, events)

/-- District metric keys, in declaration order (the shape of the JS object the
    stringly-typed effect engine probes with the in operator). -/
def districtMetricKeys : List String :=
  [ "averageCommuteMinutes", "averageRent", "rentBurden", "jobAccessScore",
    "trafficCongestion", "publicServiceSatisfaction", "happiness",
    "propertyValue", "crimeRate", "greenSpaceAccess" ]

def getDMetric (m : DistrictMetrics) (key : String) : ℚ :=
  if key = "averageCommuteMinutes" then m.averageCommuteMinutes
  else if key = "averageRent" then m.averageRent
  else if key = "rentBurden" then m.rentBurden
  else if key = "jobAccessScore" then m.jobAccessScore
  else if key = "trafficCongestion" then m.trafficCongestion
  else if key = "publicServiceSatisfaction" then m.publicServiceSatisfaction
  else if key = "happiness" then m.happiness
  else if key = "propertyValue" then m.propertyValue
  else if key = "crimeRate" then m.crimeRate
  else if key = "greenSpaceAccess" then m.greenSpaceAccess
  else 0

def setDMetric (m : DistrictMetrics) (key : String) (v : ℚ) : DistrictMetrics :=
  if key = "averageCommuteMinutes" then { m with averageCommuteMinutes := v }
  else if key = "averageRent" then { m with averageRent := v }
  else if key = "rentBurden" then { m with rentBurden := v }
  else if key = "jobAccessScore" then { m with jobAccessScore := v }
  else if key = "trafficCongestion" then { m with trafficCongestion := v }
  else if key = "publicServiceSatisfaction" then { m with publicServiceSatisfaction := v }
  else if key = "happiness" then { m with happiness := v }
  else if key = "propertyValue" then { m with propertyValue := v }
  else if key = "crimeRate" then { m with crimeRate := v }
  else if key = "greenSpaceAccess" then { m with greenSpaceAccess := v }
  else m

/-- The clamp list of the source: six ratio metrics, crimeRate is not among them. -/
def clampedKeys : List String :=
  [ "trafficCongestion", "rentBurden", "happiness",
    "jobAccessScore", "publicServiceSatisfaction", "greenSpaceAccess" ]

def clampMetric (m : DistrictMetrics) (key : String) : DistrictMetrics :=
  if key ∈ clampedKeys then setDMetric m key (max 0 (min 1 (getDMetric m key)))
  else m

/-- City metric keys, for the city-scope branch of the effect engine. -/
def cityMetricKeys : List String :=
  [ "totalPopulation", "averageCommute", "averageRent", "overallHappiness",
    "congestionIndex", "transitRidership", "budgetHealth", "housingSupply",
    "housingDemand", "jobsTotal", "economicOutput" ]

def getCMetric (m : CityMetrics) (key : String) : ℚ :=
  if key = "totalPopulation" then m.totalPopulation
  else if key = "averageCommute" then m.averageCommute
  else if key = "averageRent" then m.averageRent
  else if key = "overallHappiness" then m.overallHappiness
  else if key = "congestionIndex" then m.congestionIndex
  else if key = "transitRidership" then m.transitRidership
  else if key = "budgetHealth" then m.budgetHealth
  else if key = "housingSupply" then m.housingSupply
  else if key = "housingDemand" then m.housingDemand
  else if key = "jobsTotal" then m.jobsTotal
  else if key = "economicOutput" then m.economicOutput
  else 0

def setCMetric (m : CityMetrics) (key : String) (v : ℚ) : CityMetrics :=
  if key = "totalPopulation" then { m with totalPopulation := v }
  else if key = "averageCommute" then { m with averageCommute := v }
  else if key = "averageRent" then { m with averageRent := v }
  else if key = "overallHappiness" then { m with overallHappiness := v }
  else if key = "congestionIndex" then { m with congestionIndex := v }
  else if key = "transitRidership" then { m with transitRidership := v }
  else if key = "budgetHealth" then { m with budgetHealth := v }
  else if key = "housingSupply" then { m with housingSupply := v }
  else if key = "housingDemand" then { m with housingDemand := v }
  else if key = "jobsTotal" then { m with jobsTotal := v }
  else if key = "economicOutput" then { m with economicOutput := v }
  else m

/-- Apply a delta with clamp to one district, guarded by the key-exists probe. -/
def applyDeltaToDistrict (d : District) (key : String) (delta : ℚ) : District :=
  if key ∈ districtMetricKeys then
    { d with metrics :=
        clampMetric (setDMetric d.metrics key (getDMetric d.metrics key + delta)) key }
  else d

/-- One application of an active (post-delay) policy effect to its target scope. -/
def applyScope (e : PolicyEffect) (ds : List District) (m : CityMetrics) :
    List District × CityMetrics :=
  match e.target with
  | .district districtId =>
      (if (findD ds districtId).isSome then
         updD ds districtId (fun d => applyDeltaToDistrict d e.metric e.delta)
       else ds, m)
  | .districts districtIds =>
      (districtIds.foldl (fun ds did =>
         if (findD ds did).isSome then
           updD ds did (fun d => applyDeltaToDistrict d e.metric e.delta)
         else ds) ds, m)
  | .city =>
      (ds, if e.metric ∈ cityMetricKeys then
         setCMetric m e.metric (getCMetric m e.metric + e.delta)
       else m)
  | .adjacent districtId =>
      (match findD ds districtId with
       | none => ds
       | some source =>
         source.adjacentDistricts.foldl (fun ds adjId =>
           if (findD ds adjId).isSome then
             updD ds adjId (fun d => applyDeltaToDistrict d e.metric (e.delta * (1/2)))
           else ds) ds, m)

/-- The per-tick pass over the active-effect set: inert effects count down their
    activation delay, active effects fire on their scope and count down their
    duration; effects whose duration countdown has reached zero are then removed
    (the -1 permanent sentinel never triggers removal). -/
def applyActiveEffects (fx : List ActiveEffect) (ds : List District)
    (m : CityMetrics) : List ActiveEffect × List District × CityMetrics :=
  let step := fx.foldl (fun (acc : List ActiveEffect × List District × CityMetrics) ae =>
    if 0 < ae.turnsUntilActive then
      (acc.1 ++ [{ ae with turnsUntilActive := ae.turnsUntilActive - 1 }], acc.2)
    else
      let applied := applyScope ae.effect acc.2.1 acc.2.2
      let ae1 := if 0 < ae.turnsRemaining then
          { ae with turnsRemaining := ae.turnsRemaining - 1 }
        else ae
      (acc.1 ++ [ae1], applied.1, applied.2)) ([], ds, m)
  (step.1.filter (fun ae => ae.turnsRemaining ≠ 0), step.2.1, step.2.2)

def updateCityMetrics (ds : List District) (m : CityMetrics) : CityMetrics :=
  let tp := totalPop ds
  let m1 := { m with totalPopulation := tp }
  if tp = 0 then m1
  else
    { m1 with
      averageCommute :=
        ((ds.map (fun d => d.metrics.averageCommuteMinutes * d.population)).sum) / tp,
      overallHappiness :=
        ((ds.map (fun d => d.metrics.happiness * d.population)).sum) / tp,
      congestionIndex :=
        ((ds.map (fun d => d.metrics.trafficCongestion * d.population)).sum) / tp,
      housingDemand := ⌊tp / (5/2) * (11/10)⌋,
      budgetHealth := max 0 (min 1 (1/2)) }

structure EconomyTickResult where
  districts : List District
  metrics : CityMetrics
  budget : Budget
  activeEffects : List ActiveEffect
  moves : List Move
  events : List GameEvent
deriving DecidableEq

/-- Full economy tick.  Note: the orchestrator passes the transit operating cost
    as an extra argument; the function signature in the source has no such
    parameter, so at runtime the value is ignored. -/
def tickEconomy (ds : List District) (m : CityMetrics) (b : Budget)
    (fx : List ActiveEffect) : EconomyTickResult :=
  let stage1 := applyActiveEffects fx ds m
  let fx1 := stage1.1
  let ds1 := stage1.2.1
  let m1 := stage1.2.2
  let ds2 := ds1.map (fun d =>
    { d with metrics := { d.metrics with happiness := calculateHappiness d } })
  let ds3 := ds2.map (fun d =>
    { d with metrics := { d.metrics with
        jobAccessScore := calculateJobAccess d ds2 m1.jobsTotal } })
  let ds4 := applyPopulationGrowth ds3
  let stage5 := simulateMigration ds4
  let ds5 := stage5.1
  let m2 := updateCityMetrics ds5 m1
  let stage7 := updateBudget b ds5
  ⟨ds5, m2, stage7.1, fx1, stage5.2, stage7.2⟩

/-! ## Politics system (src/systems/politics.ts, weighted-voting version) -/

def getIdeologyScore (leaning : PoliticalLeaning) (p : PolicyProposal) : ℚ :=
  match leaning with
  | .progressive =>
      if p.category = .housing then 8/10
      else if p.category = .transit then 7/10
      else if p.category = .congestionPricing then 4/10
      else if p.category = .zoning then 3/10
      else 0
  | .conservative =>
      if p.category = .congestionPricing then -(4/10)
      else if p.category = .taxation then -(8/10)
      else if p.category = .zoning then -(3/10)
      else 0
  | .nimby =>
      if p.category = .zoning then -(9/10)
      else if p.category = .housing then -(4/10)
      else 0
  | .yimby =>
      if p.category = .zoning then 9/10
      else if p.category = .housing then 7/10
      else if p.category = .transit then 5/10
      else 0
  | .populist =>
      if p.category = .congestionPricing then -(7/10)
      else if p.category = .taxation then -(5/10)
      else if p.category = .housing then 5/10
      else if p.category = .transit then 3/10
      else 0
  | .moderate => 1/10

structure VoteDecision where
  votesYes : Bool
  reason : String
deriving DecidableEq

def determineVote (rep : Representative) (p : PolicyProposal)
    (district : District) : VoteDecision :=
  let m := district.metrics
  let targetIncludesDistrict :=
    match p.targetDistricts with
    | .all => true
    | .some ids => decide (district.id ∈ ids)
  -- 1. Ideology
  let ideologyScore := getIdeologyScore rep.leaning p
  let s1 : ℚ := ideologyScore * 2
  let r1 : List String :=
    if 3/10 < |ideologyScore| then
      [if 0 < ideologyScore then "aligns with ideology" else "conflicts with ideology"]
    else []
  -- 2. District needs
  let trafficHit := 1/2 < m.trafficCongestion ∧
    (p.category = PolicyCategory.transit ∨ p.category = PolicyCategory.congestionPricing)
  let trafficUrgency := (m.trafficCongestion - 3/10) * 3
  let s2 := if trafficHit then s1 + trafficUrgency else s1
  let r2 := r1 ++ (if trafficHit ∧ 1/2 < trafficUrgency
    then ["district needs traffic relief"] else [])
  let rentHit := 35/100 < m.rentBurden ∧
    (p.category = PolicyCategory.housing ∨ p.category = PolicyCategory.zoning)
  let rentUrgency := (m.rentBurden - 25/100) * (5/2)
  let s3 := if rentHit then s2 + rentUrgency else s2
  let r3 := r2 ++ (if rentHit ∧ 1/2 < rentUrgency
    then ["district needs rent relief"] else [])
  let servicesHit := m.publicServiceSatisfaction < 1/2 ∧
    p.category = PolicyCategory.infrastructure
  let s4 := if servicesHit then s3 + (1/2 - m.publicServiceSatisfaction) * 2 else s3
  let r4 := r3 ++ (if servicesHit then ["district needs better services"] else [])
  -- 3. Priority alignment
  let prio := p.category ∈ rep.priorities
  let s5 := if prio then s4 + 1 else s4
  let r5 := r4 ++ (if prio then ["priority issue"] else [])
  -- 4. District targeting
  let s6 := if targetIncludesDistrict then s5 + 1/2 else s5 - 3/10
  -- 5. Budget concern
  let costPenalty := min (3/2) (p.cost / 2000)
  let s7 := if 0 < p.cost then
      (if rep.leaning = PoliticalLeaning.conservative then s6 - costPenalty * (3/2)
       else s6 - costPenalty * (3/10))
    else s6 + 1/2
  let r6 := r5 ++
    (if 0 < p.cost then
      (if rep.leaning = PoliticalLeaning.conservative ∧ 1/2 < costPenalty
       then ["too expensive"] else [])
     else ["generates revenue"])
  -- 6. Political cost and re-election risk
  let riskHit := 1/2 < rep.reElectionRisk ∧ 6/10 < p.politicalCost
  let riskPenalty := rep.reElectionRisk * p.politicalCost
  let s8 := if riskHit then s7 - riskPenalty else s7
  let r7 := r6 ++ (if riskHit ∧ 1/2 < riskPenalty
    then ["too risky before election"] else [])
  -- 7. Populist pricing penalty
  let pricingHit := rep.leaning = PoliticalLeaning.populist ∧
    p.category = PolicyCategory.congestionPricing
  let s9 := if pricingHit then s8 - 3/2 else s8
  let r8 := r7 ++ (if pricingHit then ["opposes pricing on principle"] else [])
  let votesYes := decide (0 < s9)
  let reason :=
    if 0 < r8.length then String.intercalate "; " r8
    else if votesYes then "generally supportive" else "not convinced"
  ⟨votesYes, reason⟩

def voteList (p : PolicyProposal) (reps : List Representative)
    (ds : List District) : List VoteCast :=
  reps.filterMap (fun rep =>
    (findD ds rep.districtId).map (fun district =>
      let dec := determineVote rep p district
      ⟨rep.id, dec.votesYes, dec.reason⟩))

/-- The referendum tally: fold over the cast votes, re-finding each voter and
    their district (exactly the source loop). -/
def referendumTally (reps : List Representative) (ds : List District)
    (votes : List VoteCast) : ℚ × ℚ :=
  votes.foldl (fun acc v =>
    match findRep reps v.representativeId with
    | none => acc
    | some rep =>
      match findD ds rep.districtId with
      | none => acc
      | some d =>
        ((acc.1 + if v.votedYes then d.population else 0), acc.2 + d.population))
    (0, 0)

def conductVote (p : PolicyProposal) (reps : List Representative)
    (ds : List District) : VoteResult :=
  let votes := voteList p reps ds
  let votesFor := (votes.filter (fun v => v.votedYes)).length
  let votesAgainst := votes.length - votesFor
  let totalVoters := votes.length
  let passed : Bool :=
    match p.voteRequirement with
    | .simpleMajority => decide ((totalVoters : ℚ) / 2 < (votesFor : ℚ))
    | .superMajority => decide ((⌈((totalVoters : ℚ) * 2) / 3⌉ : ℤ) ≤ (votesFor : ℤ))
    | .executiveOrder => true
    | .referendum =>
        let t := referendumTally reps ds votes
        decide (t.2 / 2 < t.1)
  ⟨p.id, votes, passed, votesFor, votesAgainst, p.voteRequirement⟩

def updateApproval (reps : List Representative) (ds : List District) :
    List Representative :=
  reps.map (fun rep =>
    match findD ds rep.districtId with
    | none => rep
    | some district =>
      let happinessEffect := (district.metrics.happiness - 1/2) * (35/100)
      let approval := max 0 (min 1 (rep.approvalRating + happinessEffect - 8/1000))
      { rep with
        approvalRating := approval,
        reElectionRisk :=
          if approval < 35/100 then 8/10
          else if approval < 1/2 then 1/2
          else 2/10 })

/-- Code unit of the first character of a representative id (JS: charCodeAt(0)). -/
def charCode0 (s : String) : ℕ :=
  match s.data with
  | [] => 0
  | c :: _ => c.toNat

def determineNewLeaning (district : District) : PoliticalLeaning :=
  let m := district.metrics
  if 1/2 < m.rentBurden then
    (if 1/2 < m.trafficCongestion then .yimby else .progressive)
  else if district.currentDensity < district.maxDensity * (3/10) then .nimby
  else if 7/10 < m.trafficCongestion then .populist
  else .moderate

def determinePriorities (district : District) : List PolicyCategory :=
  let m := district.metrics
  let prioList : List (PolicyCategory × ℚ) :=
    [ (.transit, m.trafficCongestion),
      (.housing, m.rentBurden),
      (.congestionPricing, m.trafficCongestion * (8/10)),
      (.zoning, m.rentBurden * (9/10)),
      (.infrastructure, 1 - m.publicServiceSatisfaction),
      (.budget, 3/10) ]
  ((prioList.mergeSort (fun a b => decide (b.2 ≤ a.2))).take 3).map (fun pr => pr.1)

/-- One election pass.  The sine-based seededRandom of the source is passed in as
    the draw function from seed to value; the source seed is
    turn * 1000 + charCodeAt(0) of the representative id. -/
def runElectionGo (draw : ℕ → ℚ) (ds : List District) (turn : ℕ) :
    List Representative →
      List Representative × List ElectionEntry × List GameEvent
  | [] => ([], [], [])
  | rep :: rest =>
    let tail := runElectionGo draw ds turn rest
    let tailReps := tail.1
    let tailResults := tail.2.1
    let tailEvents := tail.2.2
    match findD ds rep.districtId with
    | none => (rep :: tailReps, tailResults, tailEvents)
    | some district =>
      let loseChance := rep.reElectionRisk
      let random := draw (turn * 1000 + charCode0 rep.id)
      if random < loseChance ∧ rep.approvalRating < 1/2 then
        let newLeaning := determineNewLeaning district
        let newRep : Representative :=
          { id := "rep_" ++ district.id ++ "_t" ++ toString turn,
            name := "Rep. " ++ ((district.name.splitOn "(").headD "").trim ++ " (New)",
            districtId := district.id,
            leaning := newLeaning,
            approvalRating := 55/100,
            reElectionRisk := 2/10,
            priorities := determinePriorities district,
            voteHistory := [],
            termNumber := 1 }
        (newRep :: tailReps,
         ⟨district.id, rep.id, .replaced, Option.some newRep.id, rep.approvalRating⟩
           :: tailResults,
         ⟨"election", district.name ++ ": seat flipped", Option.some district.id,
           "warning"⟩ :: tailEvents)
      else
        ({ rep with termNumber := rep.termNumber + 1 } :: tailReps,
         ⟨district.id, rep.id, .retained, none, rep.approvalRating⟩ :: tailResults,
         tailEvents)

def runElection (draw : ℕ → ℚ) (reps : List Representative) (ds : List District)
    (turn : ℕ) : List Representative × ElectionResult × List GameEvent :=
  let go := runElectionGo draw ds turn reps
  (go.1, ⟨turn, go.2.1⟩, go.2.2)

/-! ## Orchestrator (src/engine/SimulationEngine.ts) -/

structure CityConfig where
  name : String
  districts : List District
  representatives : List Representative
  transitLines : List TransitLine
  roadNetwork : RoadNetwork
  budget : Budget
  initialMetrics : CityMetrics
  electionInterval : ℕ
  scenarioGoals : List ScenarioGoal
deriving DecidableEq

structure PassedPolicy where
  policy : PolicyProposal
  turnPassed : ℕ
  votesFor : ℕ
  votesAgainst : ℕ
deriving DecidableEq

structure GameState where
  city : CityConfig
  turn : ℕ
  mode : GameMode
  metrics : CityMetrics
  activeEffects : List ActiveEffect
  policyHistory : List PassedPolicy
  electionLog : List ElectionResult
  lastVoteResult : Option VoteResult
  gameOver : Bool
  gameOverReason : Option String
deriving DecidableEq

structure DistrictChange where
  districtId : String
  metricsBefore : DistrictMetrics
  metricsAfter : DistrictMetrics
deriving DecidableEq

structure TurnResult where
  turn : ℕ
  metricsBefor : CityMetrics     -- field name as in the source
  metricsAfter : CityMetrics
  districtChanges : List DistrictChange
  populationMoves : List Move
  events : List GameEvent
  election : Option ElectionResult
  voteResult : Option VoteResult
deriving DecidableEq

def DEFAULT_BASE_RENT : ℚ := 1200
def DEFAULT_MEDIAN_INCOME : ℚ := 50000

/-- Engine construction: deep copy, derived densities, seeded road loads. -/
def mkEngineState (cfg : CityConfig) (mode : GameMode) : GameState :=
  let ds := cfg.districts.map (fun d =>
    { d with currentDensity := if 0 < d.area then d.population / d.area else 0 })
  let road := initRoadLoads cfg.roadNetwork ds
  { city := { cfg with districts := ds, roadNetwork := road },
    turn := 0,
    mode := mode,
    metrics := cfg.initialMetrics,
    activeEffects := [],
    policyHistory := [],
    electionLog := [],
    lastVoteResult := none,
    gameOver := false,
    gameOverReason := none }

/-- Schedule a passed policy: history entry, one active effect per policy
    effect (duration 0 becomes the permanent sentinel -1), budget deduction. -/
def applyPolicy (s : GameState) (p : PolicyProposal) : GameState :=
  let hist : PassedPolicy :=
    { policy := p,
      turnPassed := s.turn,
      votesFor := (s.lastVoteResult.map (fun r => r.votesFor)).getD 0,
      votesAgainst := (s.lastVoteResult.map (fun r => r.votesAgainst)).getD 0 }
  let newEffects := p.effects.map (fun e =>
    ({ policyId := p.id,
       effect := e,
       turnsRemaining := if e.duration = 0 then -1 else (e.duration : ℤ),
       turnsUntilActive := (e.delay : ℤ) } : ActiveEffect))
  { s with
    policyHistory := s.policyHistory ++ [hist],
    activeEffects := s.activeEffects ++ newEffects,
    city := { s.city with budget :=
      { s.city.budget with balance := s.city.budget.balance - p.cost } } }

def proposePolicy (s : GameState) (p : PolicyProposal) :
    GameState × Option VoteResult :=
  if s.gameOver then (s, none)
  else if s.mode = GameMode.sandbox then
    let s1 := applyPolicy s p
    (s1, Option.some
      ⟨p.id, [], true, 0, 0, VoteRequirement.executiveOrder⟩)
  else
    let result := conductVote p s.city.representatives s.city.districts
    let s1 := { s with lastVoteResult := Option.some result }
    let s2 := if result.passed then applyPolicy s1 p else s1
    let reps3 := result.votes.foldl (fun reps v =>
      reps.map (fun r =>
        if r.id = v.representativeId then
          { r with voteHistory := r.voteHistory ++ [(p.id, s.turn, v.votedYes)] }
        else r)) s2.city.representatives
    ({ s2 with city := { s2.city with representatives := reps3 } },
     Option.some result)

def checkGoals (s : GameState) : List (ScenarioGoal × Bool) :=
  s.city.scenarioGoals.map (fun goal =>
    let value := getCMetric s.metrics goal.metric
    (goal, if goal.comparison then decide (goal.target ≤ value)
           else decide (value ≤ goal.target)))

def checkGameOver (s : GameState) (events : List GameEvent) :
    GameState × List GameEvent :=
  if s.city.budget.balance < -10000 then
    ({ s with gameOver := true, gameOverReason := Option.some "City went bankrupt." },
     events ++ [⟨"crisis", "The city is bankrupt! Game over.", none, "critical"⟩])
  else
    let goals := checkGoals s
    if 0 < goals.length ∧ goals.all (fun g => g.2) then
      ({ s with gameOver := true, gameOverReason := Option.some "All scenario goals achieved!" },
       events ++ [⟨"milestone", "All scenario goals achieved!", none, "info"⟩])
    else (s, events)

def emptyTurnResult (s : GameState) : TurnResult :=
  { turn := s.turn,
    metricsBefor := s.metrics,
    metricsAfter := s.metrics,
    districtChanges := [],
    populationMoves := [],
    events := [⟨"crisis", "Game is over.", none, "critical"⟩],
    election := none,
    voteResult := none }

/-- One full engine tick.  The draw parameter embeds the sine-based pseudo-random
    function used by elections. -/
def tick (draw : ℕ → ℚ) (s : GameState) : GameState × TurnResult :=
  if s.gameOver then (s, emptyTurnResult s)
  else
    let s0 := { s with turn := s.turn + 1 }
    let metricsBefore := s0.metrics
    let districtsBefore := s0.city.districts.map (fun d => (d.id, d.metrics))
    -- 1. Zoning
    let (ds1, m1) := tickZoning s0.city.districts s0.metrics
      DEFAULT_BASE_RENT DEFAULT_MEDIAN_INCOME
    -- 2. Traffic
    let (ds2, road2) := tickTraffic ds1 s0.city.roadNetwork s0.city.transitLines
    -- 3. Transit (its operating cost is returned to the caller)
    let tres := tickTransit ds2 s0.city.transitLines m1
    -- 4. Economy (the engine passes the transit cost as an extra argument, but
    --    the economy function signature has no parameter for it: it is dropped)
    let eres := tickEconomy tres.districts tres.metrics s0.city.budget s0.activeEffects
    -- 5. City congestion from the road network
    let m5 := { eres.metrics with congestionIndex := calculateCityCongestion road2 }
    -- 6. Approval
    let reps6 := updateApproval s0.city.representatives eres.districts
    -- 7. Elections on interval turns (political mode only)
    let runsElection := s0.mode = GameMode.political ∧
      s0.turn % s0.city.electionInterval = 0 ∧ 0 < s0.turn
    let (reps7, electionOpt, electionEvents) :=
      if runsElection then
        let (r, res, evs) := runElection draw reps6 eres.districts s0.turn
        (r, Option.some res, evs)
      else (reps6, none, [])
    let s7 : GameState :=
      { s0 with
        city := { s0.city with
          districts := eres.districts,
          roadNetwork := road2,
          transitLines := tres.lines,
          representatives := reps7,
          budget := eres.budget },
        metrics := m5,
        activeEffects := eres.activeEffects,
        electionLog := match electionOpt with
          | Option.some r => s0.electionLog ++ [r]
          | none => s0.electionLog }
    let allEvents := tres.events ++ eres.events ++ electionEvents
    -- 8. Game over check
    let (s8, finalEvents) := checkGameOver s7 allEvents
    let changes := districtsBefore.map (fun pr =>
      { districtId := pr.1,
        metricsBefore := pr.2,
        metricsAfter := match findD s8.city.districts pr.1 with
          | Option.some d => d.metrics
          | none => pr.2 })
    (s8,
     { turn := s8.turn,
       metricsBefor := metricsBefore,
       metricsAfter := s8.metrics,
       districtChanges := changes,
       populationMoves := eres.moves,
       events := finalEvents,
       election := electionOpt,
       voteResult := s8.lastVoteResult })

/-! ## Iteration helpers and specification-side tally functions -/

/-- The scheduling performed by applyPolicy for a single policy effect. -/
def schedEffect (pid : String) (e : PolicyEffect) : ActiveEffect :=
  { policyId := pid,
    effect := e,
    turnsRemaining := if e.duration = 0 then -1 else (e.duration : ℤ),
    turnsUntilActive := (e.delay : ℤ) }

/-- One tick of the policy-effect engine on its full state triple. -/
def effectsStep (x : List ActiveEffect × List District × CityMetrics) :
    List ActiveEffect × List District × CityMetrics :=
  applyActiveEffects x.1 x.2.1 x.2.2

def iterEffects (n : ℕ) (x : List ActiveEffect × List District × CityMetrics) :
    List ActiveEffect × List District × CityMetrics :=
  effectsStep^[n] x

/-- The pure one-shot application of an effect to the district/city state. -/
def scopeStep (e : PolicyEffect) (x : List District × CityMetrics) :
    List District × CityMetrics :=
  applyScope e x.1 x.2

def scopeIter (e : PolicyEffect) (n : ℕ) (x : List District × CityMetrics) :
    List District × CityMetrics :=
  (scopeStep e)^[n] x

/-- What a representative votes, said directly: the vote computed against the
    district found for them (false when the district is missing). -/
def yesOf (p : PolicyProposal) (ds : List District) (r : Representative) : Bool :=
  match findD ds r.districtId with
  | some d => (determineVote r p d).votesYes
  | none => false

/-- Total cast of a representative, as the source pushes it. -/
def castOf (p : PolicyProposal) (ds : List District) (r : Representative) : VoteCast :=
  match findD ds r.districtId with
  | some d => ⟨r.id, (determineVote r p d).votesYes, (determineVote r p d).reason⟩
  | none => ⟨r.id, false, ""⟩

/-- Population of the district found for a representative. -/
def popOf (ds : List District) (r : Representative) : ℚ :=
  match findD ds r.districtId with
  | some d => d.population
  | none => 0

/-- Referendum tally, written as the specification states it: summed population
    of the districts of yes-voting representatives. -/
def specPopFor (p : PolicyProposal) (reps : List Representative)
    (ds : List District) : ℚ :=
  (reps.map (fun r => if yesOf p ds r then popOf ds r else 0)).sum

/-- Summed population of all voting representatives' districts. -/
def specPopTotal (reps : List Representative) (ds : List District) : ℚ :=
  (reps.map (fun r => popOf ds r)).sum

/-- Outgoing migration volume of a district id under a move list. -/
def moveOut (moves : List Move) (i : String) : ℚ :=
  (moves.map (fun m => if m.src = i then (m.count : ℚ) else 0)).sum

/-- Incoming migration volume of a district id under a move list. -/
def moveIn (moves : List Move) (i : String) : ℚ :=
  (moves.map (fun m => if m.dst = i then (m.count : ℚ) else 0)).sum

/-- Population update performed by one move on one district. -/
def moveUpd (mv : Move) (d : District) : District :=
  if d.id = mv.src then { d with population := d.population - (mv.count : ℚ) }
  else if d.id = mv.dst then { d with population := d.population + (mv.count : ℚ) }
  else d

/-! ## Concrete fixtures for witnesses and counterexamples -/

def zeroZones : ZoneAllocation := ⟨0, 0, 0, 0, 0, 0, 0, 0⟩

def dmBase : DistrictMetrics :=
  { averageCommuteMinutes := 30,
    averageRent := 1000,
    rentBurden := 1/2,
    jobAccessScore := 1/2,
    trafficCongestion := 1/2,
    publicServiceSatisfaction := 1/2,
    happiness := 1/2,
    propertyValue := 1,
    crimeRate := 2/10,
    greenSpaceAccess := 1/2 }

def cmZero : CityMetrics :=
  { totalPopulation := 0, averageCommute := 0, averageRent := 0,
    overallHappiness := 0, congestionIndex := 0, transitRidership := 0,
    budgetHealth := 0, housingSupply := 0, housingDemand := 0,
    jobsTotal := 0, economicOutput := 0 }

def budgetBase : Budget :=
  { balance := 5000, incomePerTurn := 0, expensesPerTurn := 100,
    taxRate := 1, transitSubsidy := 0 }

def districtBase : District :=
  { id := "d1", name := "District One", population := 1000, area := 10,
    zones := zeroZones, maxDensity := 1000, currentDensity := 100,
    metrics := dmBase, adjacentDistricts := [], hasTransitStation := false,
    transitLines := [], parkingMinimum := 0 }

def cfgBase : CityConfig :=
  { name := "Testville", districts := [districtBase], representatives := [],
    transitLines := [], roadNetwork := ⟨[], []⟩, budget := budgetBase,
    initialMetrics := cmZero, electionInterval := 4, scenarioGoals := [] }

/-- The crime-rate policy used to refute the clamp-everything claim: a permanent
    district-scope effect on crimeRate with a negative delta. -/
def crimePolicy : PolicyProposal :=
  { id := "pol_crime", name := "Crime wave", category := .budget,
    voteRequirement := .executiveOrder,
    effects := [⟨.district "d1", "crimeRate", -(1/2), 0, 0⟩],
    cost := 0, targetDistricts := .all, politicalCost := 0 }

/-- Sandbox engine state right after proposing the crime-rate policy. -/
def c3State : GameState :=
  (proposePolicy (mkEngineState cfgBase GameMode.sandbox) crimePolicy).1

/-- District whose happiness target is exactly one half while its current
    happiness is zero; exposes snap-to-target updates. -/
def c5District : District :=
  { districtBase with metrics := { dmBase with happiness := 0 } }

def lineA : TransitLine :=
  { id := "A", name := "Line A", type := .rail, districts := ["d1"],
    capacity := 0, ridership := 0, operatingCost := 10,
    constructionTurnsRemaining := 1, propertyValueBoost := 1 }

def lineB : TransitLine :=
  { lineA with id := "B", name := "Line B", constructionTurnsRemaining := 2 }

/-- Transit state after one tick with the two staggered lines. -/
def c7Tick1 : TransitTickResult := tickTransit [districtBase] [lineA, lineB] cmZero

/-- Transit state after the second tick, on which the second line completes. -/
def c7Tick2 : TransitTickResult := tickTransit c7Tick1.districts c7Tick1.lines c7Tick1.metrics

/-- Active effect used to demonstrate the district-scope clamp. -/
def aeClampW : ActiveEffect :=
  ⟨"p", ⟨.district "d1", "happiness", 2, 0, 0⟩, -1, 0⟩

/-- Effect used by the lifecycle witness: delay 1, duration 2. -/
def effLifeW : PolicyEffect := ⟨.district "d1", "happiness", 1/10, 1, 2⟩

/-- Representative fixture with high approval for the election witness. -/
def repW : Representative :=
  { id := "r1", name := "Rep One", districtId := "d1", leaning := .moderate,
    approvalRating := 6/10, reElectionRisk := 2/10, priorities := [],
    voteHistory := [], termNumber := 1 }

/-- Universally appealing revenue proposal for the voting witness. -/
def propW : PolicyProposal :=
  { id := "pol_w", name := "Windfall", category := .infrastructure,
    voteRequirement := .superMajority, effects := [], cost := -100,
    targetDistricts := .all, politicalCost := 0 }

def repW2 : Representative := { repW with id := "r2", districtId := "d2" }

def repW3 : Representative := { repW with id := "r3", districtId := "d3" }

def districtB2 : District := { districtBase with id := "d2", name := "District Two" }

def districtB3 : District := { districtBase with id := "d3", name := "District Three" }

/-- Migration witness: a crowded unhappy district next to an attractive one. -/
def happyD : District :=
  { districtBase with
    id := "h", adjacentDistricts := ["s"],
    population := 30000, area := 10, maxDensity := 10000,
    metrics := { dmBase with
      happiness := 9/10, rentBurden := 2/10, jobAccessScore := 8/10 } }

def sadD : District :=
  { districtBase with
    id := "s", adjacentDistricts := ["h"],
    population := 50000, area := 10, maxDensity := 10000,
    metrics := { dmBase with
      happiness := 2/10, rentBurden := 6/10, jobAccessScore := 3/10 } }

/-- Sandbox state used by the sandbox-proposal witness. -/
def sandboxState : GameState := mkEngineState cfgBase GameMode.sandbox

/-- A terminal state used by the game-over witness. -/
def overState : GameState :=
  { sandboxState with gameOver := true, gameOverReason := Option.some "City went bankrupt." }

/-- Ids of the 51 neighbors used to refute the no-negative-population claim. -/
def c8NeighborIds : List String := (List.range 51).map (fun k => "n" ++ toString k)

/-- A maximally attractive, empty neighbor with room for migrants. -/
def c8Neighbor (i : String) : District :=
  { districtBase with
    id := i, population := 0, maxDensity := 1000, area := 10,
    adjacentDistricts := [],
    metrics := { dmBase with happiness := 1, rentBurden := 0, jobAccessScore := 1 } }

/-- A minimally attractive source district adjacent to all 51 neighbors. -/
def c8Source : District :=
  { districtBase with
    id := "s0", population := 10000, maxDensity := 1000, area := 10,
    adjacentDistricts := c8NeighborIds,
    metrics := { dmBase with happiness := 0, rentBurden := 1, jobAccessScore := 0 } }

/-- The 52-district city on which migration drives the source negative: each of
    the 51 neighbors draws floor(2 percent of 10000) = 200 people. -/
def c8City : List District := c8Source :: c8NeighborIds.map c8Neighbor

/-- District value produced by the clamp witness: the happiness push of +2 is
    clamped back to 1. -/
def dWC3 : District := { districtBase with metrics := { dmBase with happiness := 1 } }

/-! ## Supporting lemmas -/

theorem clampedKeys_sub_districtMetricKeys :
    ∀ k ∈ clampedKeys, k ∈ districtMetricKeys := by decide

theorem getDMetric_setDMetric (m : DistrictMetrics) (key : String) (v : ℚ)
    (hk : key ∈ districtMetricKeys) :
    getDMetric (setDMetric m key v) key = v := by
  simp only [districtMetricKeys, List.mem_cons, List.not_mem_nil, or_false] at hk
  rcases hk with rfl | rfl | rfl | rfl | rfl | rfl | rfl | rfl | rfl | rfl <;>
    simp [getDMetric, setDMetric]

theorem applyDeltaToDistrict_id (d : District) (key : String) (delta : ℚ) :
    (applyDeltaToDistrict d key delta).id = d.id := by
  unfold applyDeltaToDistrict
  split <;> rfl

/-! ## Claim theorems -/

/-- C4: once isGameOver() is true, every subsequent tick() returns the sentinel
    result with the single crisis event and leaves the turn counter, the city
    metrics and all district metrics unchanged (the state is returned as is),
    and every subsequent proposePolicy() returns null without mutating state. -/
theorem C4_gameOver_frozen (draw : ℕ → ℚ) (s : GameState) (p : PolicyProposal)
    (h : s.gameOver = true) :
    tick draw s = (s, emptyTurnResult s) ∧
    (emptyTurnResult s).turn = s.turn ∧
    (emptyTurnResult s).metricsBefor = s.metrics ∧
    (emptyTurnResult s).metricsAfter = s.metrics ∧
    (emptyTurnResult s).districtChanges = [] ∧
    (emptyTurnResult s).events = [⟨"crisis", "Game is over.", none, "critical"⟩] ∧
    proposePolicy s p = (s, none) ∧
    ∀ n : ℕ, (fun st => (tick draw st).1)^[n] s = s := by
  have ht : tick draw s = (s, emptyTurnResult s) := by
    simp [tick, h]
  refine ⟨ht, rfl, rfl, rfl, rfl, rfl, ?_, ?_⟩
  · simp [proposePolicy, h]
  · intro n
    apply Function.iterate_fixed
    simp [ht]

/-- Witness for C4 at a concrete terminal state. -/
theorem C4_gameOver_frozen_witness :
    tick (fun _ => 0) overState = (overState, emptyTurnResult overState) ∧
    proposePolicy overState crimePolicy = (overState, none) :=
  ⟨(C4_gameOver_frozen (fun _ => 0) overState crimePolicy rfl).1,
   (C4_gameOver_frozen (fun _ => 0) overState crimePolicy rfl).2.2.2.2.2.2.1⟩

/-- C10: in Sandbox mode with the game not over, proposePolicy applies the
    policy without a vote: the balance drops by exactly the cost, one active
    effect is appended per policy effect (duration 0 stored as the permanent
    sentinel), and the returned VoteResult is passed with an empty vote list,
    zero tallies and ExecutiveOrder as the requirement. -/
theorem C10_sandbox_proposePolicy (s : GameState) (p : PolicyProposal)
    (hmode : s.mode = GameMode.sandbox) (hgo : s.gameOver = false) :
    (proposePolicy s p).2 =
      Option.some ⟨p.id, [], true, 0, 0, VoteRequirement.executiveOrder⟩ ∧
    (proposePolicy s p).1 = applyPolicy s p ∧
    (applyPolicy s p).city.budget.balance = s.city.budget.balance - p.cost ∧
    (applyPolicy s p).activeEffects = s.activeEffects ++ p.effects.map (schedEffect p.id) ∧
    (applyPolicy s p).metrics = s.metrics ∧
    (applyPolicy s p).city.districts = s.city.districts ∧
    (applyPolicy s p).turn = s.turn ∧
    (applyPolicy s p).gameOver = s.gameOver := by
  refine ⟨?_, ?_, rfl, ?_, rfl, rfl, rfl, rfl⟩
  · simp [proposePolicy, hmode, hgo]
  · simp [proposePolicy, hmode, hgo]
  · simp [applyPolicy, schedEffect]

/-- Witness for C10 at a concrete sandbox state. -/
theorem C10_sandbox_proposePolicy_witness :
    (proposePolicy sandboxState crimePolicy).2 =
      Option.some ⟨"pol_crime", [], true, 0, 0, VoteRequirement.executiveOrder⟩ ∧
    (applyPolicy sandboxState crimePolicy).city.budget.balance =
      sandboxState.city.budget.balance - crimePolicy.cost :=
  ⟨(C10_sandbox_proposePolicy sandboxState crimePolicy rfl rfl).1,
   (C10_sandbox_proposePolicy sandboxState crimePolicy rfl rfl).2.2.1⟩

/-- C6 (code side): tickEconomy leaves expensesPerTurn untouched and adds
    income minus the stored expenses to the balance; it has no transit-cost
    input at all, so the transit operating cost returned by tickTransit cannot
    enter the expenses. -/
theorem C6_budget_ignores_transit_cost (ds : List District) (m : CityMetrics)
    (b : Budget) (fx : List ActiveEffect) :
    (tickEconomy ds m b fx).budget.expensesPerTurn = b.expensesPerTurn ∧
    (tickEconomy ds m b fx).budget.taxRate = b.taxRate ∧
    (tickEconomy ds m b fx).budget.incomePerTurn =
      totalPop (tickEconomy ds m b fx).districts * (5/100) * b.taxRate ∧
    (tickEconomy ds m b fx).budget.balance =
      b.balance + (tickEconomy ds m b fx).budget.incomePerTurn - b.expensesPerTurn := by
  refine ⟨rfl, rfl, rfl, ?_⟩
  simp only [tickEconomy, updateBudget]
  ring

/-- C5 (code side): the economy tick writes the happiness target straight into
    the district (snap, not exponential damping): a district whose happiness is
    0 and whose component target is one half holds exactly one half after the
    tick, not the damped 0.88 times 0 plus 0.12 times one half. -/
theorem C5_happiness_snaps_to_target :
    c5District.metrics.happiness = 0 ∧
    calculateHappiness c5District = 1/2 ∧
    ((tickEconomy [c5District] cmZero budgetBase []).districts.headD
        districtBase).metrics.happiness = 1/2 ∧
    ((1/2 : ℚ) ≠ 0 * (1 - 12/100) + (1/2) * (12/100)) := by
  with_unfolding_all decide

/-- C7 (code side): with two lines sharing a district, line A completing on
    tick 1 and line B on tick 2, the property boost of A is applied again on
    tick 2 (value 1.45 instead of the one-shot 1.30), because the transit tick
    re-applies property effects of every operational line whenever any
    construction milestone fires. -/
theorem C7_property_boost_reapplied :
    (c7Tick1.districts.headD districtBase).metrics.propertyValue = 1 + 15/100 ∧
    (c7Tick2.districts.headD districtBase).metrics.propertyValue = 29/20 ∧
    ((29/20 : ℚ) ≠ 1 + 15/100 + 15/100) ∧
    c7Tick1.events = [⟨"milestone", "Line A (rail) is now operational!", none, "info"⟩] ∧
    c7Tick2.events = [⟨"milestone", "Line B (rail) is now operational!", none, "info"⟩] := by
  with_unfolding_all decide

/-- C3 counterexample: a reachable sandbox tick with a permanent district-scope
    policy effect on crimeRate (a ratio metric the claim lists) leaves that
    district metric at minus three tenths: the clamp list of the source omits
    crimeRate, so ratio metrics do not all stay within the unit interval after
    a tick. -/
theorem C3_counterexample :
    ((tick (fun _ => 0) c3State).1.city.districts.headD districtBase).metrics.crimeRate
        = -(3/10) ∧
    ((tick (fun _ => 0) c3State).1.city.districts.all
        (fun d => decide (0 ≤ d.metrics.crimeRate ∧ d.metrics.crimeRate ≤ 1))) = false := by
  with_unfolding_all decide

/-- C3 amended: a district-scope policy-effect application whose metric is one
    of the six metrics in the source clamp list (crimeRate is not among them)
    leaves that metric of the targeted district inside the unit interval. -/
theorem C3_clamped_district_effect (ds : List District) (m : CityMetrics)
    (ae : ActiveEffect) (tid : String)
    (hact : ae.turnsUntilActive ≤ 0)
    (htgt : ae.effect.target = PolicyEffectTarget.district tid)
    (hkey : ae.effect.metric ∈ clampedKeys) :
    ∀ d2 ∈ (applyActiveEffects [ae] ds m).2.1, d2.id = tid →
      0 ≤ getDMetric d2.metrics ae.effect.metric ∧
      getDMetric d2.metrics ae.effect.metric ≤ 1 := by
  intro d2 hmem hid
  have hnlt : ¬ 0 < ae.turnsUntilActive := by omega
  have hm2 : d2 ∈ (applyScope ae.effect ds m).1 := by
    simpa [applyActiveEffects, hnlt] using hmem
  simp only [applyScope, htgt] at hm2
  by_cases hfind : (findD ds tid).isSome
  · rw [if_pos hfind] at hm2
    rcases List.mem_map.1 hm2 with ⟨d, hd, hd2⟩
    by_cases hdid : d.id = tid
    · rw [if_pos hdid] at hd2
      subst hd2
      have hmk := clampedKeys_sub_districtMetricKeys _ hkey
      simp only [applyDeltaToDistrict, clampMetric, hmk, hkey, if_true,
        getDMetric_setDMetric _ _ _ hmk]
      exact ⟨le_max_left 0 _, max_le (by norm_num) (min_le_left 1 _)⟩
    · rw [if_neg hdid] at hd2
      subst hd2
      exact absurd hid hdid
  · rw [if_neg hfind] at hm2
    exfalso
    have hnone : findD ds tid = none := Option.not_isSome_iff_eq_none.1 hfind
    rw [findD, List.find?_eq_none] at hnone
    exact (hnone d2 hm2) (by simp [hid])

set_option maxRecDepth 1000000 in
/-- Witness for the amended C3 statement at a concrete clamped application. -/
theorem C3_clamped_district_effect_witness :
    0 ≤ getDMetric dWC3.metrics "happiness" ∧ getDMetric dWC3.metrics "happiness" ≤ 1 :=
  C3_clamped_district_effect [districtBase] cmZero aeClampW "d1"
    (by decide) rfl (by decide) dWC3 (by with_unfolding_all decide) rfl

theorem applyActiveEffects_nil (ds : List District) (m : CityMetrics) :
    applyActiveEffects [] ds m = ([], ds, m) := by
  simp [applyActiveEffects]

theorem schedEffect_tr_ne (pid : String) (e : PolicyEffect) :
    (schedEffect pid e).turnsRemaining ≠ 0 := by
  simp only [schedEffect]
  split <;> omega

theorem applyActiveEffects_single_inert (ae : ActiveEffect) (ds : List District)
    (m : CityMetrics) (h : 0 < ae.turnsUntilActive) (htr : ae.turnsRemaining ≠ 0) :
    applyActiveEffects [ae] ds m =
      ([{ ae with turnsUntilActive := ae.turnsUntilActive - 1 }], ds, m) := by
  simp [applyActiveEffects, h, htr]

theorem applyActiveEffects_single_perm (ae : ActiveEffect) (ds : List District)
    (m : CityMetrics) (h : ¬ 0 < ae.turnsUntilActive) (htr : ae.turnsRemaining = -1) :
    applyActiveEffects [ae] ds m =
      ([ae], (applyScope ae.effect ds m).1, (applyScope ae.effect ds m).2) := by
  have h2 : ¬ 0 < ae.turnsRemaining := by omega
  have h3 : ae.turnsRemaining ≠ 0 := by omega
  simp [applyActiveEffects, h, h2, h3]

theorem applyActiveEffects_single_active (ae : ActiveEffect) (ds : List District)
    (m : CityMetrics) (h : ¬ 0 < ae.turnsUntilActive) (htr : 0 < ae.turnsRemaining) :
    applyActiveEffects [ae] ds m =
      ((if ae.turnsRemaining = 1 then []
        else [{ ae with turnsRemaining := ae.turnsRemaining - 1 }]),
       (applyScope ae.effect ds m).1, (applyScope ae.effect ds m).2) := by
  by_cases h1 : ae.turnsRemaining = 1
  · simp [applyActiveEffects, h, htr, h1]
  · have h2 : ae.turnsRemaining - 1 ≠ 0 := by omega
    simp [applyActiveEffects, h, htr, h1, h2]

/-- Single-step evaluation of the effect engine on a singleton effect set,
    written with an explicit constructor so the rewrite is syntactic. -/
theorem effectsStep_inert (pid : String) (e : PolicyEffect) (tr t : ℤ)
    (ds : List District) (m : CityMetrics) (hpos : 0 < t) (htr : tr ≠ 0) :
    applyActiveEffects [⟨pid, e, tr, t⟩] ds m = ([⟨pid, e, tr, t - 1⟩], ds, m) := by
  have h := applyActiveEffects_single_inert ⟨pid, e, tr, t⟩ ds m hpos htr
  exact h

theorem effectsStep_perm (pid : String) (e : PolicyEffect) (t : ℤ)
    (ds : List District) (m : CityMetrics) (hneg : ¬ 0 < t) :
    applyActiveEffects [⟨pid, e, -1, t⟩] ds m =
      ([⟨pid, e, -1, t⟩], (applyScope e ds m).1, (applyScope e ds m).2) := by
  exact applyActiveEffects_single_perm ⟨pid, e, -1, t⟩ ds m hneg rfl

theorem effectsStep_active (pid : String) (e : PolicyEffect) (tr : ℤ)
    (ds : List District) (m : CityMetrics) (htr : 0 < tr) :
    applyActiveEffects [⟨pid, e, tr, 0⟩] ds m =
      ((if tr = 1 then [] else [⟨pid, e, tr - 1, 0⟩]),
       (applyScope e ds m).1, (applyScope e ds m).2) := by
  have h := applyActiveEffects_single_active ⟨pid, e, tr, 0⟩ ds m (by simp) htr
  exact h

/-- C2: lifecycle of an active effect scheduled by applyPolicy with delay d and
    duration k.  (1) For the first d ticks the effect mutates nothing: the
    district list and city metrics are returned unchanged while the activation
    countdown runs down.  (2) With duration 0 (permanent sentinel -1) the effect
    is a member of the active set after every number of ticks; it is never
    removed.  (3) With duration k greater than 0, after d + j ticks (j at most k)
    the state equals exactly j applications of the effect, and the effect list is
    empty exactly at j = k: the delta fires on exactly k ticks and the effect is
    removed at the end of the k-th active tick.  (4) From tick d + k on, the
    active set stays empty and the state stays at k applications. -/
theorem C2_effect_lifecycle (pid : String) (e : PolicyEffect) (ds : List District)
    (m : CityMetrics) :
    (∀ n : ℕ, n ≤ e.delay →
      iterEffects n ([schedEffect pid e], ds, m) =
        ([⟨pid, e, (schedEffect pid e).turnsRemaining, (e.delay : ℤ) - n⟩], ds, m)) ∧
    (e.duration = 0 → ∀ n : ℕ, ∃ t : ℤ,
      (iterEffects n ([schedEffect pid e], ds, m)).1 = [⟨pid, e, -1, t⟩]) ∧
    (0 < e.duration → ∀ j : ℕ, j ≤ e.duration →
      iterEffects (e.delay + j) ([schedEffect pid e], ds, m) =
        ((if j = e.duration then [] else [⟨pid, e, (e.duration : ℤ) - j, 0⟩]),
         scopeIter e j (ds, m))) ∧
    (0 < e.duration → ∀ n : ℕ, e.delay + e.duration ≤ n →
      iterEffects n ([schedEffect pid e], ds, m) =
        ([], scopeIter e e.duration (ds, m))) := by
  have hA : ∀ n : ℕ, n ≤ e.delay →
      iterEffects n ([schedEffect pid e], ds, m) =
        ([⟨pid, e, (schedEffect pid e).turnsRemaining, (e.delay : ℤ) - n⟩], ds, m) := by
    intro n
    induction n with
    | zero =>
      intro _
      simp only [iterEffects, Function.iterate_zero, id_eq, Nat.cast_zero, sub_zero]
      rfl
    | succ n ih =>
      intro hle
      have hn : n ≤ e.delay := by omega
      rw [iterEffects, Function.iterate_succ_apply', ← iterEffects, ih hn]
      have hpos : (0 : ℤ) < (e.delay : ℤ) - n := by
        have : (n : ℤ) < (e.delay : ℤ) := by exact_mod_cast (by omega : n < e.delay)
        omega
      have hstep := effectsStep_inert pid e (schedEffect pid e).turnsRemaining
        ((e.delay : ℤ) - n) ds m hpos (schedEffect_tr_ne pid e)
      refine Eq.trans hstep ?_
      have harith : (e.delay : ℤ) - n - 1 = (e.delay : ℤ) - (n + 1 : ℕ) := by
        push_cast
        ring
      rw [harith]
  have hC : 0 < e.duration → ∀ j : ℕ, j ≤ e.duration →
      iterEffects (e.delay + j) ([schedEffect pid e], ds, m) =
        ((if j = e.duration then [] else [⟨pid, e, (e.duration : ℤ) - j, 0⟩]),
         scopeIter e j (ds, m)) := by
    intro hkpos j
    induction j with
    | zero =>
      intro _
      have h0 : e.duration ≠ 0 := by omega
      rw [Nat.add_zero, hA e.delay (le_refl _)]
      have hiff : ¬ ((0 : ℕ) = e.duration) := by omega
      rw [if_neg hiff]
      simp only [schedEffect, if_neg h0, Nat.cast_zero, sub_zero, sub_self]
      rfl
    | succ j ih =>
      intro hle
      have hj : j ≤ e.duration := by omega
      have hjne : ¬ (j = e.duration) := by omega
      have hstep : e.delay + (j + 1) = (e.delay + j) + 1 := by omega
      rw [hstep, iterEffects, Function.iterate_succ_apply', ← iterEffects, ih hj,
        if_neg hjne]
      have htrpos : (0 : ℤ) < (e.duration : ℤ) - j := by
        have : (j : ℤ) < (e.duration : ℤ) := by exact_mod_cast (by omega : j < e.duration)
        omega
      have hact := effectsStep_active pid e ((e.duration : ℤ) - j)
        (scopeIter e j (ds, m)).1 (scopeIter e j (ds, m)).2 htrpos
      refine Eq.trans hact ?_
      have hiter : scopeIter e (j + 1) (ds, m) =
          applyScope e (scopeIter e j (ds, m)).1 (scopeIter e j (ds, m)).2 :=
        Function.iterate_succ_apply' (scopeStep e) j (ds, m)
      have hcond : ((e.duration : ℤ) - j = 1) ↔ (j + 1 = e.duration) := by omega
      by_cases hj1 : j + 1 = e.duration
      · rw [if_pos (hcond.2 hj1), if_pos hj1, hiter]
      · rw [if_neg (fun hc => hj1 (hcond.1 hc)), if_neg hj1, hiter]
        have harith : (e.duration : ℤ) - j - 1 = (e.duration : ℤ) - (j + 1 : ℕ) := by
          push_cast
          ring
        rw [harith]
  refine ⟨hA, ?_, hC, ?_⟩
  · -- permanent sentinel: always exactly one surviving effect with tr = -1
    intro hk0 n
    induction n with
    | zero =>
      refine ⟨(e.delay : ℤ), ?_⟩
      simp only [iterEffects, Function.iterate_zero, id_eq]
      simp [schedEffect, hk0]
    | succ n ih =>
      obtain ⟨t, ht⟩ := ih
      rw [iterEffects, Function.iterate_succ_apply', ← iterEffects]
      rcases hxx : iterEffects n ([schedEffect pid e], ds, m) with ⟨fx, ds', m'⟩
      rw [hxx] at ht
      simp only at ht
      subst ht
      by_cases hpos : 0 < t
      · exact ⟨t - 1, by rw [show effectsStep ([⟨pid, e, -1, t⟩], ds', m') =
          applyActiveEffects [⟨pid, e, -1, t⟩] ds' m' from rfl,
          effectsStep_inert pid e (-1) t ds' m' hpos (by decide)]⟩
      · exact ⟨t, by rw [show effectsStep ([⟨pid, e, -1, t⟩], ds', m') =
          applyActiveEffects [⟨pid, e, -1, t⟩] ds' m' from rfl,
          effectsStep_perm pid e t ds' m' hpos]⟩
  · -- after d + k ticks: empty set, state frozen at k applications
    intro hkpos n hn
    induction n with
    | zero => omega
    | succ n ih =>
      by_cases hbase : e.delay + e.duration = n + 1
      · have := hC hkpos e.duration (le_refl _)
        rw [hbase] at this
        simpa using this
      · have hn2 : e.delay + e.duration ≤ n := by omega
        rw [iterEffects, Function.iterate_succ_apply', ← iterEffects, ih hn2]
        rw [show effectsStep ([], scopeIter e e.duration (ds, m)) =
          applyActiveEffects [] (scopeIter e e.duration (ds, m)).1
            (scopeIter e e.duration (ds, m)).2 from rfl]
        rw [applyActiveEffects_nil]

/-- Witness for C2 at a concrete effect with delay 1, duration 2. -/
theorem C2_effect_lifecycle_witness :
    iterEffects 1 ([schedEffect "p" effLifeW], [districtBase], cmZero) =
      ([⟨"p", effLifeW, 2, 0⟩], [districtBase], cmZero) ∧
    (iterEffects 3 ([schedEffect "p" effLifeW], [districtBase], cmZero)).1 = [] := by
  have h := C2_effect_lifecycle "p" effLifeW [districtBase] cmZero
  constructor
  · have h1 := h.1 1 (by decide)
    refine h1.trans ?_
    norm_num [schedEffect, effLifeW]
  · have h2 := h.2.2.1 (by decide) 2 (by decide)
    have h3 := congrArg Prod.fst h2
    simpa [effLifeW] using h3

theorem findD_some_id {ds : List District} {i : String} {d : District}
    (h : findD ds i = some d) : d.id = i := by
  have := List.find?_some h
  simpa using this

theorem runElectionGo_entry_from (draw : ℕ → ℚ) (ds : List District) (turn : ℕ) :
    ∀ l : List Representative, ∀ en ∈ (runElectionGo draw ds turn l).2.1,
      ∃ r ∈ l, en.districtId = r.districtId := by
  intro l
  induction l with
  | nil => simp [runElectionGo]
  | cons rep rest ih =>
    intro en hen
    rcases hfd : findD ds rep.districtId with _ | district
    · rw [runElectionGo] at hen
      simp only [hfd] at hen
      obtain ⟨r, hr, he⟩ := ih en hen
      exact ⟨r, List.mem_cons_of_mem rep hr, he⟩
    · rw [runElectionGo] at hen
      simp only [hfd] at hen
      by_cases hl : draw (turn * 1000 + charCode0 rep.id) < rep.reElectionRisk ∧
          rep.approvalRating < 1/2
      · rw [if_pos hl] at hen
        rcases List.mem_cons.1 hen with he | he
        · subst he
          exact ⟨rep, List.mem_cons_self rep rest, findD_some_id hfd⟩
        · obtain ⟨r, hr, hid⟩ := ih en he
          exact ⟨r, List.mem_cons_of_mem rep hr, hid⟩
      · rw [if_neg hl] at hen
        rcases List.mem_cons.1 hen with he | he
        · subst he
          exact ⟨rep, List.mem_cons_self rep rest, findD_some_id hfd⟩
        · obtain ⟨r, hr, hid⟩ := ih en he
          exact ⟨r, List.mem_cons_of_mem rep hr, hid⟩

/-- C9: in runElection, for a representative with an existing district, the seat
    is lost precisely when the deterministic draw seeded by turn and identity
    is below the re-election risk AND the approval rating is below one half;
    in particular a representative with approval at least one half is always
    retained, whatever the draw. -/
theorem C9_election_retention (draw : ℕ → ℚ) (reps : List Representative)
    (ds : List District) (turn : ℕ) (rep : Representative)
    (hmem : rep ∈ reps)
    (hnd : (reps.map (fun r => r.districtId)).Nodup)
    (hd : (findD ds rep.districtId).isSome) :
    ((∃ en ∈ (runElection draw reps ds turn).2.1.results,
        en.districtId = rep.districtId ∧ en.outcome = ElectionOutcome.replaced) ↔
      (draw (turn * 1000 + charCode0 rep.id) < rep.reElectionRisk ∧
        rep.approvalRating < 1/2)) ∧
    (1/2 ≤ rep.approvalRating →
      ∃ en ∈ (runElection draw reps ds turn).2.1.results,
        en.districtId = rep.districtId ∧ en.outcome = ElectionOutcome.retained ∧
        en.incumbentId = rep.id) := by
  have hgo : (runElection draw reps ds turn).2.1.results =
      (runElectionGo draw ds turn reps).2.1 := rfl
  rw [hgo]
  clear hgo
  induction reps with
  | nil => cases hmem
  | cons a rest ih =>
    rcases List.mem_cons.1 hmem with heq | hmem2
    · subst heq
      rcases Option.isSome_iff_exists.1 hd with ⟨district, hfd⟩
      have hdist : district.id = rep.districtId := findD_some_id hfd
      have hnotin : rep.districtId ∉ rest.map (fun r => r.districtId) :=
        (List.nodup_cons.1 hnd).1
      have htail : ∀ en ∈ (runElectionGo draw ds turn rest).2.1,
          en.districtId ≠ rep.districtId := by
        intro en hen hcontra
        obtain ⟨r, hr, hid⟩ := runElectionGo_entry_from draw ds turn rest en hen
        exact hnotin (hcontra ▸ hid ▸ List.mem_map_of_mem (fun r => r.districtId) hr)
      by_cases hl : draw (turn * 1000 + charCode0 rep.id) < rep.reElectionRisk ∧
          rep.approvalRating < 1/2
      · constructor
        · constructor
          · intro _
            exact hl
          · intro _
            refine ⟨⟨district.id, rep.id, ElectionOutcome.replaced,
              Option.some ("rep_" ++ district.id ++ "_t" ++ toString turn),
              rep.approvalRating⟩, ?_, by simpa using hdist, rfl⟩
            rw [runElectionGo]
            simp only [hfd, if_pos hl]
            exact List.mem_cons_self _ _
        · intro happ
          exact absurd hl.2 (by linarith)
      · constructor
        · constructor
          · intro ⟨en, hen, hid, hout⟩
            exfalso
            rw [runElectionGo] at hen
            simp only [hfd, if_neg hl] at hen
            rcases List.mem_cons.1 hen with he | he
            · subst he
              simp at hout
            · exact htail en he hid
          · intro hcond
            exact absurd hcond hl
        · intro _
          refine ⟨⟨district.id, rep.id, ElectionOutcome.retained, none,
            rep.approvalRating⟩, ?_, by simpa using hdist, rfl, rfl⟩
          rw [runElectionGo]
          simp only [hfd, if_neg hl]
          exact List.mem_cons_self _ _
    · have hndt : (rest.map (fun r => r.districtId)).Nodup := (List.nodup_cons.1 hnd).2
      have hne : a.districtId ≠ rep.districtId := by
        intro hcontra
        have hmm : rep.districtId ∈ rest.map (fun r => r.districtId) :=
          List.mem_map_of_mem (fun r => r.districtId) hmem2
        rw [← hcontra] at hmm
        exact (List.nodup_cons.1 hnd).1 hmm
      have ihx := ih hmem2 hndt
      rcases hfd : findD ds a.districtId with _ | districtA
      · have hsame : (runElectionGo draw ds turn (a :: rest)).2.1 =
            (runElectionGo draw ds turn rest).2.1 := by
          rw [runElectionGo]
          simp only [hfd]
        rw [hsame]
        exact ihx
      · have hdistA : districtA.id = a.districtId := findD_some_id hfd
        by_cases hl : draw (turn * 1000 + charCode0 a.id) < a.reElectionRisk ∧
            a.approvalRating < 1/2
        · have hsame : (runElectionGo draw ds turn (a :: rest)).2.1 =
              (⟨districtA.id, a.id, ElectionOutcome.replaced,
                Option.some ("rep_" ++ districtA.id ++ "_t" ++ toString turn),
                a.approvalRating⟩ : ElectionEntry) ::
                (runElectionGo draw ds turn rest).2.1 := by
            rw [runElectionGo]
            simp only [hfd, if_pos hl]
          rw [hsame]
          constructor
          · rw [← ihx.1]
            constructor
            · intro ⟨en, hen, hid, hout⟩
              rcases List.mem_cons.1 hen with he | he
              · subst he
                exact absurd (hdistA ▸ hid) hne
              · exact ⟨en, he, hid, hout⟩
            · intro ⟨en, hen, hid, hout⟩
              exact ⟨en, List.mem_cons_of_mem _ hen, hid, hout⟩
          · intro happ
            obtain ⟨en, hen, hid, hout, hinc⟩ := ihx.2 happ
            exact ⟨en, List.mem_cons_of_mem _ hen, hid, hout, hinc⟩
        · have hsame : (runElectionGo draw ds turn (a :: rest)).2.1 =
              (⟨districtA.id, a.id, ElectionOutcome.retained, none,
                a.approvalRating⟩ : ElectionEntry) ::
                (runElectionGo draw ds turn rest).2.1 := by
            rw [runElectionGo]
            simp only [hfd, if_neg hl]
          rw [hsame]
          constructor
          · rw [← ihx.1]
            constructor
            · intro ⟨en, hen, hid, hout⟩
              rcases List.mem_cons.1 hen with he | he
              · subst he
                exact absurd (hdistA ▸ hid) hne
              · exact ⟨en, he, hid, hout⟩
            · intro ⟨en, hen, hid, hout⟩
              exact ⟨en, List.mem_cons_of_mem _ hen, hid, hout⟩
          · intro happ
            obtain ⟨en, hen, hid, hout, hinc⟩ := ihx.2 happ
            exact ⟨en, List.mem_cons_of_mem _ hen, hid, hout, hinc⟩

/-- Witness for C9: approval 0.6 with a draw of 0 (below the risk) is retained. -/
theorem C9_election_retention_witness :
    ((runElection (fun _ => 0) [repW] [districtBase] 4).2.1.results.any
      (fun en => en.districtId = "d1" && en.outcome = ElectionOutcome.retained &&
        en.incumbentId = "r1")) = true := by
  obtain ⟨en, hen, h1, h2, h3⟩ :=
    (C9_election_retention (fun _ => 0) [repW] [districtBase] 4 repW
      (by simp) (by simp) (by decide)).2 (by norm_num [repW])
  rw [List.any_eq_true]
  exact ⟨en, hen, by simp [h1, h2, h3, repW]⟩

theorem findRep_self (reps : List Representative)
    (hnd : (reps.map (fun r => r.id)).Nodup) :
    ∀ r ∈ reps, findRep reps r.id = some r := by
  induction reps with
  | nil => intro r hr; cases hr
  | cons a rest ih =>
    intro r hr
    rcases List.mem_cons.1 hr with rfl | hr2
    · rw [findRep]
      exact List.find?_cons_of_pos _ (by simp)
    · have hane : ¬ (a.id = r.id) := by
        intro hc
        have hmm : r.id ∈ rest.map (fun r => r.id) :=
          List.mem_map_of_mem (fun r => r.id) hr2
        rw [← hc] at hmm
        exact (List.nodup_cons.1 hnd).1 hmm
      rw [findRep, List.find?_cons_of_neg _ (by simp [hane])]
      exact ih (List.nodup_cons.1 hnd).2 r hr2

theorem castOf_votedYes (p : PolicyProposal) (ds : List District)
    (r : Representative) : (castOf p ds r).votedYes = yesOf p ds r := by
  rw [castOf, yesOf]
  rcases findD ds r.districtId with _ | d <;> rfl

theorem castOf_repId (p : PolicyProposal) (ds : List District)
    (r : Representative) : (castOf p ds r).representativeId = r.id := by
  rw [castOf]
  rcases findD ds r.districtId with _ | d <;> rfl

theorem voteList_eq_map (p : PolicyProposal) (ds : List District) :
    ∀ reps : List Representative, (∀ r ∈ reps, (findD ds r.districtId).isSome) →
      voteList p reps ds = reps.map (castOf p ds) := by
  intro reps
  induction reps with
  | nil => intro _; rfl
  | cons a rest ih =>
    intro hex
    obtain ⟨d, hd⟩ := Option.isSome_iff_exists.1 (hex a (List.mem_cons_self a rest))
    rw [voteList, List.filterMap_cons]
    rw [voteList] at ih
    simp only [hd, Option.map_some]
    rw [ih (fun r hr => hex r (List.mem_cons_of_mem a hr))]
    rw [List.map_cons]
    refine congrArg (fun v => v :: rest.map (castOf p ds)) ?_
    rw [castOf, hd]

theorem count_yes_votes (p : PolicyProposal) (ds : List District) :
    ∀ reps : List Representative,
      ((reps.map (castOf p ds)).filter (fun v => v.votedYes)).length =
        (reps.filter (fun r => yesOf p ds r)).length := by
  intro reps
  induction reps with
  | nil => rfl
  | cons a rest ih =>
    rw [List.map_cons, List.filter_cons, List.filter_cons, castOf_votedYes]
    rcases hy : yesOf p ds a <;> simp [hy, ih]

theorem refTally_go (p : PolicyProposal) (reps : List Representative)
    (ds : List District) (hnd : (reps.map (fun r => r.id)).Nodup) :
    ∀ l : List Representative, (∀ r ∈ l, r ∈ reps) →
      (∀ r ∈ l, (findD ds r.districtId).isSome) → ∀ acc : ℚ × ℚ,
      List.foldl (fun acc v =>
        match findRep reps v.representativeId with
        | none => acc
        | some rep =>
          match findD ds rep.districtId with
          | none => acc
          | some d =>
            ((acc.1 + if v.votedYes then d.population else 0), acc.2 + d.population))
        acc (l.map (castOf p ds)) =
      (acc.1 + specPopFor p l ds, acc.2 + specPopTotal l ds) := by
  intro l
  induction l with
  | nil =>
    intro _ _ acc
    simp [specPopFor, specPopTotal]
  | cons a rest ih =>
    intro hsub hex acc
    obtain ⟨d, hd⟩ := Option.isSome_iff_exists.1 (hex a (List.mem_cons_self a rest))
    have hfr : findRep reps a.id = some a :=
      findRep_self reps hnd a (hsub a (List.mem_cons_self a rest))
    rw [List.map_cons, List.foldl_cons]
    simp only [castOf_repId, hfr, hd]
    rw [ih (fun r hr => hsub r (List.mem_cons_of_mem a hr))
      (fun r hr => hex r (List.mem_cons_of_mem a hr))]
    have hpop : popOf ds a = d.population := by rw [popOf, hd]
    simp only [specPopFor, specPopTotal, List.map_cons, List.sum_cons,
      castOf_votedYes, hpop]
    refine Prod.ext_iff.2 ⟨?_, ?_⟩ <;> dsimp only <;> ring

/-- C1: conductVote applies the pass rule of the vote-requirement kind.  With
    every representative's district present and distinct representative ids:
    the vote list has one cast per representative; votesFor counts exactly the
    representatives whose determineVote is yes; SimpleMajority passes iff
    yes-votes exceed half the voters; SuperMajority passes iff yes-votes reach
    the ceiling of two thirds of the voters (so 2 of 3 pass, 1 of 3 fails);
    ExecutiveOrder always passes; Referendum passes iff the summed population
    of yes-voting representatives' districts exceeds half the summed population
    of all voting representatives' districts. -/
theorem C1_conductVote_rules (p : PolicyProposal) (reps : List Representative)
    (ds : List District)
    (hex : ∀ r ∈ reps, (findD ds r.districtId).isSome)
    (hnd : (reps.map (fun r => r.id)).Nodup) :
    (conductVote p reps ds).votes.length = reps.length ∧
    (conductVote p reps ds).votesFor = (reps.filter (fun r => yesOf p ds r)).length ∧
    (p.voteRequirement = VoteRequirement.simpleMajority →
      ((conductVote p reps ds).passed = true ↔
        ((conductVote p reps ds).votes.length : ℚ) / 2 <
          ((conductVote p reps ds).votesFor : ℚ))) ∧
    (p.voteRequirement = VoteRequirement.superMajority →
      ((conductVote p reps ds).passed = true ↔
        (⌈(((conductVote p reps ds).votes.length : ℚ) * 2) / 3⌉ ≤
          ((conductVote p reps ds).votesFor : ℤ)))) ∧
    (p.voteRequirement = VoteRequirement.executiveOrder →
      (conductVote p reps ds).passed = true) ∧
    (p.voteRequirement = VoteRequirement.referendum →
      ((conductVote p reps ds).passed = true ↔
        specPopTotal reps ds / 2 < specPopFor p reps ds)) := by
  have hvl : voteList p reps ds = reps.map (castOf p ds) := voteList_eq_map p ds reps hex
  have hv : (conductVote p reps ds).votes = voteList p reps ds := rfl
  have hvf : (conductVote p reps ds).votesFor =
      ((voteList p reps ds).filter (fun v => v.votedYes)).length := rfl
  refine ⟨?_, ?_, ?_, ?_, ?_, ?_⟩
  · rw [hv, hvl, List.length_map]
  · rw [hvf, hvl, count_yes_votes]
  · intro hreq
    have hp : (conductVote p reps ds).passed =
        decide (((voteList p reps ds).length : ℚ) / 2 <
          ((((voteList p reps ds).filter (fun v => v.votedYes)).length : ℕ) : ℚ)) := by
      rw [conductVote, hreq]
    rw [hv, hvf, hp]
    exact decide_eq_true_iff
  · intro hreq
    have hp : (conductVote p reps ds).passed =
        decide ((⌈(((voteList p reps ds).length : ℚ) * 2) / 3⌉ : ℤ) ≤
          ((((voteList p reps ds).filter (fun v => v.votedYes)).length : ℕ) : ℤ)) := by
      rw [conductVote, hreq]
    rw [hv, hvf, hp]
    exact decide_eq_true_iff
  · intro hreq
    have hp : (conductVote p reps ds).passed = true := by
      rw [conductVote, hreq]
    exact hp
  · intro hreq
    have hp : (conductVote p reps ds).passed =
        decide ((referendumTally reps ds (voteList p reps ds)).2 / 2 <
          (referendumTally reps ds (voteList p reps ds)).1) := by
      rw [conductVote, hreq]
    rw [hp]
    have ht : referendumTally reps ds (voteList p reps ds) =
        (specPopFor p reps ds, specPopTotal reps ds) := by
      rw [hvl, referendumTally]
      rw [refTally_go p reps ds hnd reps (fun r hr => hr) hex (0, 0)]
      simp
    rw [ht]
    exact decide_eq_true_iff

/-- Witness for C1: a universally appealing revenue proposal passes a
    supermajority vote of three representatives. -/
theorem C1_conductVote_rules_witness :
    (conductVote propW [repW, repW2, repW3]
      [districtBase, districtB2, districtB3]).passed = true := by
  have h := (C1_conductVote_rules propW [repW, repW2, repW3]
    [districtBase, districtB2, districtB3] (by decide) (by decide)).2.2.2.1 rfl
  refine h.2 ?_
  with_unfolding_all decide

theorem migrationStep_some (ds : List District) (d : District) (adjId : String)
    (mv : Move) (h : migrationStep ds d adjId = some mv) :
    mv.src = d.id ∧ mv.dst = adjId ∧
    1/20 < attrOf ds adjId - attrOf ds d.id ∧
    (∃ adjD, findD ds adjId = some adjD ∧
      0 < adjD.maxDensity * adjD.area - adjD.population ∧
      (mv.count : ℚ) ≤ (adjD.maxDensity * adjD.area - adjD.population) * (1/10) ∧
      (mv.count : ℤ) ≤ ⌊d.population * (2/100) * (attrOf ds adjId - attrOf ds d.id)⌋) ∧
    0 < mv.count := by
  rw [migrationStep] at h
  rcases hfd : findD ds adjId with _ | adjD
  · rw [hfd] at h
    cases h
  · rw [hfd] at h
    simp only at h
    split_ifs at h with h1 h2 h3
    · cases h
      refine ⟨rfl, rfl, h1, ⟨adjD, rfl, h2, ?_, ?_⟩, h3⟩
      · have hle : min ⌊d.population * (2/100) * (attrOf ds adjId - attrOf ds d.id)⌋
            ⌊(adjD.maxDensity * adjD.area - adjD.population) * (1/10)⌋ ≤
            ⌊(adjD.maxDensity * adjD.area - adjD.population) * (1/10)⌋ :=
          min_le_right _ _
        calc ((min ⌊d.population * (2/100) * (attrOf ds adjId - attrOf ds d.id)⌋
            ⌊(adjD.maxDensity * adjD.area - adjD.population) * (1/10)⌋ : ℤ) : ℚ)
            ≤ ((⌊(adjD.maxDensity * adjD.area - adjD.population) * (1/10)⌋ : ℤ) : ℚ) := by
              exact_mod_cast hle
          _ ≤ (adjD.maxDensity * adjD.area - adjD.population) * (1/10) := Int.floor_le _
      · exact min_le_left _ _

theorem attrOf_range (ds : List District)
    (hmet : ∀ d ∈ ds, 0 ≤ d.metrics.happiness ∧ d.metrics.happiness ≤ 1 ∧
      0 ≤ d.metrics.rentBurden ∧ d.metrics.rentBurden ≤ 1 ∧
      0 ≤ d.metrics.jobAccessScore ∧ d.metrics.jobAccessScore ≤ 1)
    (i : String) : 0 ≤ attrOf ds i ∧ attrOf ds i ≤ 1 := by
  rcases hfd : findD ds i with _ | d
  · simp only [attrOf, hfd]
    norm_num
  · simp only [attrOf, hfd]
    have hd : d ∈ ds := List.mem_of_find?_eq_some hfd
    obtain ⟨h1, h2, h3, h4, h5, h6⟩ := hmet d hd
    simp only [attractivenessScore]
    constructor <;> nlinarith

theorem moveOut_cons (mv : Move) (moves : List Move) (i : String) :
    moveOut (mv :: moves) i =
      (if mv.src = i then (mv.count : ℚ) else 0) + moveOut moves i := by
  simp [moveOut]

theorem moveIn_cons (mv : Move) (moves : List Move) (i : String) :
    moveIn (mv :: moves) i =
      (if mv.dst = i then (mv.count : ℚ) else 0) + moveIn moves i := by
  simp [moveIn]

theorem moveOut_append (l1 l2 : List Move) (i : String) :
    moveOut (l1 ++ l2) i = moveOut l1 i + moveOut l2 i := by
  simp [moveOut]

theorem moveIn_nonneg (moves : List Move) (i : String)
    (h : ∀ mv ∈ moves, 0 ≤ (mv.count : ℚ)) : 0 ≤ moveIn moves i := by
  refine List.sum_nonneg ?_
  intro x hx
  rcases List.mem_map.1 hx with ⟨mv, hmv, rfl⟩
  by_cases hc : mv.dst = i
  · simpa [hc] using h mv hmv
  · simp [hc]

theorem moveOut_eq_zero (moves : List Move) (i : String)
    (h : ∀ mv ∈ moves, mv.src ≠ i) : moveOut moves i = 0 := by
  refine List.sum_eq_zero ?_
  intro x hx
  rcases List.mem_map.1 hx with ⟨mv, hmv, rfl⟩
  simp [h mv hmv]

theorem moveOut_flatMap (f : District → List Move) (l : List District) (i : String) :
    moveOut (l.flatMap f) i = (l.map (fun d => moveOut (f d) i)).sum := by
  induction l with
  | nil => simp [moveOut]
  | cons a t ih =>
    rw [List.flatMap_cons, moveOut_append, List.map_cons, List.sum_cons, ih]

theorem moveOut_filterMap_le (l : List String) (f : String → Option Move)
    (i : String) (B : ℚ) (hB : 0 ≤ B)
    (hcount : ∀ a mv, f a = some mv → (mv.count : ℚ) ≤ B) :
    moveOut (l.filterMap f) i ≤ (l.length : ℚ) * B := by
  induction l with
  | nil => simp [moveOut]
  | cons a t ih =>
    rw [List.filterMap_cons, List.length_cons]
    have hlen : ((t.length + 1 : ℕ) : ℚ) * B = (t.length : ℚ) * B + B := by
      push_cast
      ring
    rcases hfa : f a with _ | mv
    · rw [hlen]
      linarith [ih]
    · rw [moveOut_cons, hlen]
      have hc := hcount a mv hfa
      by_cases hsrc : mv.src = i
      · rw [if_pos hsrc]
        linarith [ih]
      · rw [if_neg hsrc]
        linarith [ih]

theorem gen_src (ds : List District) (d : District) :
    ∀ mv ∈ d.adjacentDistricts.filterMap (migrationStep ds d), mv.src = d.id := by
  intro mv hmv
  rcases List.mem_filterMap.1 hmv with ⟨a, _, ha⟩
  exact (migrationStep_some ds d a mv ha).1

theorem gen_moveOut_le (ds : List District) (d : District)
    (hmet : ∀ d2 ∈ ds, 0 ≤ d2.metrics.happiness ∧ d2.metrics.happiness ≤ 1 ∧
      0 ≤ d2.metrics.rentBurden ∧ d2.metrics.rentBurden ≤ 1 ∧
      0 ≤ d2.metrics.jobAccessScore ∧ d2.metrics.jobAccessScore ≤ 1)
    (hpop : 0 ≤ d.population) (hadj : d.adjacentDistricts.length ≤ 50)
    (i : String) :
    moveOut (d.adjacentDistricts.filterMap (migrationStep ds d)) i ≤ d.population := by
  have hBn : (0 : ℚ) ≤ d.population * (2/100) := by positivity
  have hcount : ∀ a mv, migrationStep ds d a = some mv →
      (mv.count : ℚ) ≤ d.population * (2/100) := by
    intro a mv h
    obtain ⟨-, -, hdiff, ⟨adjD, -, -, -, hmig⟩, -⟩ := migrationStep_some ds d a mv h
    have h1 : (mv.count : ℚ) ≤ d.population * (2/100) * (attrOf ds a - attrOf ds d.id) := by
      calc (mv.count : ℚ)
          ≤ ((⌊d.population * (2/100) * (attrOf ds a - attrOf ds d.id)⌋ : ℤ) : ℚ) := by
            exact_mod_cast hmig
        _ ≤ d.population * (2/100) * (attrOf ds a - attrOf ds d.id) := Int.floor_le _
    have hup := (attrOf_range ds hmet a).2
    have hlo := (attrOf_range ds hmet d.id).1
    nlinarith
  calc moveOut (d.adjacentDistricts.filterMap (migrationStep ds d)) i
      ≤ (d.adjacentDistricts.length : ℚ) * (d.population * (2/100)) :=
        moveOut_filterMap_le _ _ _ _ hBn hcount
    _ ≤ 50 * (d.population * (2/100)) := by
        have hc : ((d.adjacentDistricts.length : ℕ) : ℚ) ≤ 50 := by exact_mod_cast hadj
        nlinarith
    _ = d.population := by ring

theorem sum_moveOut_le (gen : District → List Move) (i : String) (B : ℚ)
    (hB : 0 ≤ B) :
    ∀ l : List District, (l.map (fun d => d.id)).Nodup →
      (∀ d2 ∈ l, ∀ mv ∈ gen d2, mv.src = d2.id) →
      (∀ d2 ∈ l, d2.id = i → moveOut (gen d2) i ≤ B) →
      (l.map (fun d2 => moveOut (gen d2) i)).sum ≤ B := by
  intro l
  induction l with
  | nil =>
    intro _ _ _
    simpa using hB
  | cons a t ih =>
    intro hnd hsrc hb
    rw [List.map_cons, List.sum_cons]
    by_cases ha : a.id = i
    · have hbound := hb a (List.mem_cons_self a t) ha
      have hzt : (t.map (fun d2 => moveOut (gen d2) i)).sum = 0 := by
        refine List.sum_eq_zero ?_
        intro x hx
        rcases List.mem_map.1 hx with ⟨d2, hd2, rfl⟩
        have hne : d2.id ≠ i := by
          intro hc
          have hmm : d2.id ∈ t.map (fun d => d.id) :=
            List.mem_map_of_mem (fun d => d.id) hd2
          rw [hc, ← ha] at hmm
          exact (List.nodup_cons.1 hnd).1 hmm
        refine moveOut_eq_zero _ _ ?_
        intro mv hmv
        rw [hsrc d2 (List.mem_cons_of_mem a hd2) mv hmv]
        exact hne
      rw [hzt]
      linarith
    · rw [moveOut_eq_zero _ _ (fun mv hmv => by
        rw [hsrc a (List.mem_cons_self a t) mv hmv]; exact ha), zero_add]
      exact ih (List.nodup_cons.1 hnd).2
        (fun d2 hd2 => hsrc d2 (List.mem_cons_of_mem a hd2))
        (fun d2 hd2 => hb d2 (List.mem_cons_of_mem a hd2))

theorem total_moveOut_le (ds : List District)
    (hnd : (ds.map (fun d => d.id)).Nodup)
    (hpop : ∀ d ∈ ds, 0 ≤ d.population)
    (hmet : ∀ d ∈ ds, 0 ≤ d.metrics.happiness ∧ d.metrics.happiness ≤ 1 ∧
      0 ≤ d.metrics.rentBurden ∧ d.metrics.rentBurden ≤ 1 ∧
      0 ≤ d.metrics.jobAccessScore ∧ d.metrics.jobAccessScore ≤ 1)
    (hadj : ∀ d ∈ ds, d.adjacentDistricts.length ≤ 50)
    (d : District) (hd : d ∈ ds) :
    moveOut (computeMoves ds) d.id ≤ d.population := by
  rw [computeMoves, moveOut_flatMap]
  refine sum_moveOut_le _ d.id d.population (hpop d hd) ds hnd
    (fun d2 hd2 => gen_src ds d2) ?_
  intro d2 hd2 hid
  have hsame : d2 = d := by
    have hinj := List.inj_on_of_nodup_map hnd
    exact hinj hd2 hd hid
  subst hsame
  exact gen_moveOut_le ds d2 hmet (hpop d2 hd2) (hadj d2 hd2) d2.id

theorem moveUpd_id (mv : Move) (d : District) : (moveUpd mv d).id = d.id := by
  rw [moveUpd]
  split_ifs <;> rfl

theorem findD_isSome_map (g : District → District)
    (hid : ∀ d, (g d).id = d.id) (ds : List District) (j : String) :
    (findD (ds.map g) j).isSome = (findD ds j).isSome := by
  rw [findD, findD, List.find?_map]
  have hfun : ((fun d : District => decide (d.id = j)) ∘ g) =
      (fun d : District => decide (d.id = j)) := by
    funext d
    simp [Function.comp, hid d]
  rw [hfun]
  rcases ds.find? (fun d : District => decide (d.id = j)) <;> rfl

theorem updD_updD_eq_map (ds : List District) (mv : Move) (hne : mv.src ≠ mv.dst) :
    updD (updD ds mv.src (fun d => { d with population := d.population - (mv.count : ℚ) }))
      mv.dst (fun d => { d with population := d.population + (mv.count : ℚ) }) =
    ds.map (moveUpd mv) := by
  rw [updD, updD, List.map_map]
  refine List.map_congr_left ?_
  intro d _
  by_cases h1 : d.id = mv.src
  · have hne2 : ¬ (d.id = mv.dst) := by
      rw [h1]
      exact hne
    simp [Function.comp, moveUpd, h1, hne2, hne]
  · by_cases h2 : d.id = mv.dst <;>
      simp [Function.comp, moveUpd, h1, h2, hne, Ne.symm hne]

theorem applyMoves_eq_map (moves : List Move) :
    ∀ ds : List District,
      (∀ mv ∈ moves, (findD ds mv.src).isSome ∧ (findD ds mv.dst).isSome ∧
        mv.src ≠ mv.dst) →
      applyMoves ds moves = ds.map (fun d =>
        { d with population := d.population + moveIn moves d.id -
            moveOut moves d.id }) := by
  induction moves with
  | nil =>
    intro ds _
    have hfun : (fun d : District =>
        { d with population := d.population + moveIn [] d.id - moveOut [] d.id }) =
        fun d => d := by
      funext d
      have : d.population + moveIn [] d.id - moveOut [] d.id = d.population := by
        simp [moveIn, moveOut]
      rw [this]
    rw [hfun, List.map_id']
    rfl
  | cons mv rest ih =>
    intro ds hpres
    obtain ⟨h1, h2, hne⟩ := hpres mv (List.mem_cons_self mv rest)
    rcases Option.isSome_iff_exists.1 h1 with ⟨dsrc, hsrc⟩
    rcases Option.isSome_iff_exists.1 h2 with ⟨ddst, hdst⟩
    have hstep : applyMoves ds (mv :: rest) = applyMoves (ds.map (moveUpd mv)) rest := by
      rw [applyMoves, List.foldl_cons, ← applyMoves]
      rw [show (match findD ds mv.src, findD ds mv.dst with
        | some _, some _ =>
            updD (updD ds mv.src (fun d =>
              { d with population := d.population - (mv.count : ℚ) }))
              mv.dst (fun d => { d with population := d.population + (mv.count : ℚ) })
        | _, _ => ds) = ds.map (moveUpd mv) from by
          rw [hsrc, hdst]
          exact updD_updD_eq_map ds mv hne]
    rw [hstep]
    have hpres2 : ∀ mv2 ∈ rest, (findD (ds.map (moveUpd mv)) mv2.src).isSome ∧
        (findD (ds.map (moveUpd mv)) mv2.dst).isSome ∧ mv2.src ≠ mv2.dst := by
      intro mv2 hmv2
      obtain ⟨g1, g2, g3⟩ := hpres mv2 (List.mem_cons_of_mem mv hmv2)
      rw [findD_isSome_map (moveUpd mv) (moveUpd_id mv), findD_isSome_map (moveUpd mv) (moveUpd_id mv)]
      exact ⟨g1, g2, g3⟩
    rw [ih (ds.map (moveUpd mv)) hpres2, List.map_map]
    refine List.map_congr_left ?_
    intro d _
    rw [Function.comp_apply]
    by_cases hs : d.id = mv.src
    · have hmU : moveUpd mv d = { d with population := d.population - (mv.count : ℚ) } := by
        rw [moveUpd, if_pos hs]
      rw [hmU]
      have hd1 : ¬ (mv.dst = d.id) := fun hc => hne ((hc.trans hs).symm)
      have hd2 : mv.src = d.id := hs.symm
      rw [moveIn_cons, moveOut_cons, if_neg hd1, if_pos hd2]
      have harith : d.population - (mv.count : ℚ) + moveIn rest d.id - moveOut rest d.id =
          d.population + (0 + moveIn rest d.id) - ((mv.count : ℚ) + moveOut rest d.id) := by
        ring
      exact congrArg (fun x => ({ d with population := x } : District)) harith
    · by_cases hd2 : d.id = mv.dst
      · have hmU : moveUpd mv d = { d with population := d.population + (mv.count : ℚ) } := by
          rw [moveUpd, if_neg hs, if_pos hd2]
        rw [hmU]
        have hdd : mv.dst = d.id := hd2.symm
        have hsd : ¬ (mv.src = d.id) := fun hc => hs hc.symm
        rw [moveIn_cons, moveOut_cons, if_pos hdd, if_neg hsd]
        have harith : d.population + (mv.count : ℚ) + moveIn rest d.id - moveOut rest d.id =
            d.population + ((mv.count : ℚ) + moveIn rest d.id) - (0 + moveOut rest d.id) := by
          ring
        exact congrArg (fun x => ({ d with population := x } : District)) harith
      · have hmU : moveUpd mv d = d := by
          rw [moveUpd, if_neg hs, if_neg hd2]
        rw [hmU]
        have hdd : ¬ (mv.dst = d.id) := fun hc => hd2 hc.symm
        have hsd : ¬ (mv.src = d.id) := fun hc => hs hc.symm
        rw [moveIn_cons, moveOut_cons, if_neg hdd, if_neg hsd]
        have harith : d.population + moveIn rest d.id - moveOut rest d.id =
            d.population + (0 + moveIn rest d.id) - (0 + moveOut rest d.id) := by
          ring
        exact congrArg (fun x => ({ d with population := x } : District)) harith

theorem findD_isSome_of_mem {ds : List District} {d : District} {i : String}
    (hd : d ∈ ds) (hid : d.id = i) : (findD ds i).isSome := by
  rw [findD, List.find?_isSome]
  exact ⟨d, hd, by simp [hid]⟩

/-- C8 (amended): migration moves population only along ordered adjacent pairs
    whose destination attractiveness exceeds the source's by more than the
    margin of one twentieth; every move count is positive and bounded by the
    destination's remaining capacity; the move list is a pure function of the
    pre-move state and is applied only afterwards, atomically, giving each
    district its population plus inflow minus outflow. The original claim's
    unconditional no-negative-population guarantee is false (see the
    counterexample with 51 more-attractive neighbors); it holds once valid
    districts (distinct ids, nonnegative populations, ratio metrics in range)
    additionally have at most 50 adjacency entries each, since every
    more-attractive neighbor can draw up to two percent of the source's
    population and the apply phase never re-checks the source's remaining
    population. -/
theorem C8_migration_sound (ds : List District)
    (hnd : (ds.map (fun d => d.id)).Nodup)
    (hpop : ∀ d ∈ ds, 0 ≤ d.population)
    (hmet : ∀ d ∈ ds, 0 ≤ d.metrics.happiness ∧ d.metrics.happiness ≤ 1 ∧
      0 ≤ d.metrics.rentBurden ∧ d.metrics.rentBurden ≤ 1 ∧
      0 ≤ d.metrics.jobAccessScore ∧ d.metrics.jobAccessScore ≤ 1)
    (hadj : ∀ d ∈ ds, d.adjacentDistricts.length ≤ 50) :
    ((simulateMigration ds).2 = computeMoves ds ∧
     (simulateMigration ds).1 = applyMoves ds (computeMoves ds)) ∧
    (∀ mv ∈ (simulateMigration ds).2,
      (∃ dFrom ∈ ds, dFrom.id = mv.src ∧ mv.dst ∈ dFrom.adjacentDistricts) ∧
      1/20 < attrOf ds mv.dst - attrOf ds mv.src ∧
      (∃ dTo ∈ ds, dTo.id = mv.dst ∧
        (mv.count : ℚ) ≤ dTo.maxDensity * dTo.area - dTo.population) ∧
      0 < mv.count) ∧
    (applyMoves ds (computeMoves ds) = ds.map (fun d =>
      { d with population := d.population + moveIn (computeMoves ds) d.id -
          moveOut (computeMoves ds) d.id })) ∧
    (∀ d2 ∈ (simulateMigration ds).1, 0 ≤ d2.population) := by
  have hfacts : ∀ mv ∈ computeMoves ds,
      (∃ dFrom ∈ ds, dFrom.id = mv.src ∧ mv.dst ∈ dFrom.adjacentDistricts) ∧
      1/20 < attrOf ds mv.dst - attrOf ds mv.src ∧
      (∃ dTo ∈ ds, dTo.id = mv.dst ∧
        (mv.count : ℚ) ≤ dTo.maxDensity * dTo.area - dTo.population) ∧
      0 < mv.count := by
    intro mv hmv
    rcases List.mem_flatMap.1 hmv with ⟨d, hd, hmem2⟩
    rcases List.mem_filterMap.1 hmem2 with ⟨adjId, hadjmem, hstep⟩
    obtain ⟨hsrc, hdst, hdiff, ⟨adjD, hfd, hroom, hcap, -⟩, hposc⟩ :=
      migrationStep_some ds d adjId mv hstep
    refine ⟨⟨d, hd, hsrc.symm, ?_⟩, ?_, ⟨adjD, List.mem_of_find?_eq_some hfd, ?_, ?_⟩,
      hposc⟩
    · rw [hdst]
      exact hadjmem
    · rw [hsrc, hdst]
      exact hdiff
    · rw [hdst]
      exact findD_some_id hfd
    · linarith [hcap, hroom]
  have hpres : ∀ mv ∈ computeMoves ds, (findD ds mv.src).isSome ∧
      (findD ds mv.dst).isSome ∧ mv.src ≠ mv.dst := by
    intro mv hmv
    obtain ⟨⟨dF, hdF, hidF, -⟩, hdiff, ⟨dT, hdT, hidT, -⟩, -⟩ := hfacts mv hmv
    refine ⟨findD_isSome_of_mem hdF hidF, findD_isSome_of_mem hdT hidT, ?_⟩
    intro hc
    rw [hc, sub_self] at hdiff
    exact absurd hdiff (by norm_num)
  have hmap := applyMoves_eq_map (computeMoves ds) ds hpres
  refine ⟨⟨rfl, rfl⟩, hfacts, hmap, ?_⟩
  intro d2 hd2
  have hd2b : d2 ∈ applyMoves ds (computeMoves ds) := hd2
  rw [hmap] at hd2b
  rcases List.mem_map.1 hd2b with ⟨d, hd, rfl⟩
  show (0 : ℚ) ≤ d.population + moveIn (computeMoves ds) d.id -
    moveOut (computeMoves ds) d.id
  have hin : 0 ≤ moveIn (computeMoves ds) d.id := by
    refine moveIn_nonneg _ _ ?_
    intro mv hmv
    have hc := (hfacts mv hmv).2.2.2
    exact_mod_cast le_of_lt hc
  have hout := total_moveOut_le ds hnd hpop hmet hadj d hd
  linarith [hpop d hd]

set_option maxRecDepth 1000000 in
/-- Witness for C8 on a two-district city where migration actually fires. -/
theorem C8_migration_sound_witness :
    ((simulateMigration [happyD, sadD]).1.all (fun d => decide (0 ≤ d.population))) = true ∧
    (simulateMigration [happyD, sadD]).2 = [⟨"s", "h", 550⟩] := by
  have h := (C8_migration_sound [happyD, sadD]
    (by with_unfolding_all decide)
    (by with_unfolding_all decide)
    (by with_unfolding_all decide)
    (by with_unfolding_all decide)).2.2.2
  constructor
  · rw [List.all_eq_true]
    intro d hd
    rw [decide_eq_true_iff]
    exact h d hd
  · with_unfolding_all decide

set_option maxRecDepth 1000000 in
/-- C8, counterexample to the original claim: on a valid 52-district city
    (distinct ids, nonnegative populations, attractiveness metrics in range)
    whose source district "s0" (population 10000) has 51 strictly more
    attractive adjacent neighbors, each neighbor draws 200 people = the floor
    of two percent of 10000, so after simulateMigration the source district's
    population is -200: the no-negative-population guarantee fails. -/
theorem C8_counterexample :
    (c8City.map (fun d => d.id)).Nodup ∧
    (c8City.all (fun d => decide (0 ≤ d.population))) = true ∧
    (c8City.all (fun d => decide (0 ≤ d.metrics.happiness ∧ d.metrics.happiness ≤ 1 ∧
      0 ≤ d.metrics.rentBurden ∧ d.metrics.rentBurden ≤ 1 ∧
      0 ≤ d.metrics.jobAccessScore ∧ d.metrics.jobAccessScore ≤ 1))) = true ∧
    ((simulateMigration c8City).1.headD districtBase).population = -200 ∧
    ((simulateMigration c8City).1.all (fun d => decide (0 ≤ d.population))) = false := by
  with_unfolding_all decide
